import Mathlib

/-!
emajail: a verification development of `src/main.cpp`

The program is two cooperating processes: the supervisor (`main`) and the
namespaced process (`child_func`).  Both are embedded as pure functions from an
*environment* (the values the operating system hands back to the program) to
the ordered list of calls the process issues, together with its exit status.

* A call is recorded together with the result the system gives it (`mount`,
  `mkdir`, `read`, `fork`, `wait`, `clone`, stream open and write), whether or
  not the program inspects that result.
* Pure queries (`readdir`, `getuid`, `getenv`, `stat`, reading the system
  pulse file) are inputs taken from the environment and leave no event.
* Diagnostic lines are recorded without the time-stamp header of
  `log::header`, and only when `log::silent` is off.
* File contents are sequences of bytes, each byte written as a `Char`.
* Integer types follow the LP64 Linux ABI, where every `pid_t`, `uid_t` and
  `gid_t` value fits a `long`.
* `ofstream_open` records a stream constructor and whether the file opened;
  `ofstream_write` records bytes a stream hands to the file and whether the file
  took them.  A `std::ofstream` is buffered: in `set_ugid`, whose payloads are a
  few bytes, `write` stores them and reports success, the bytes go to the file
  when the stream is destroyed, and the program never sees that result.  In the
  copy loop of `setup_pulseaudio` the program tests the stream after each chunk.
* `mkdir` is recorded with its result, which the program inspects only for the
  home directory.
* `opendir("/")` is taken to succeed; the entries it yields are an input.
-/

namespace Emajail

/-! ## Constants of the Linux headers used by the program -/

def CLONE_NEWNS : Nat := 0x00020000
def CLONE_NEWUSER : Nat := 0x10000000
def CLONE_NEWPID : Nat := 0x20000000
def CLONE_NEWIPC : Nat := 0x08000000
def CLONE_NEWUTS : Nat := 0x04000000
def CLONE_NEWNET : Nat := 0x40000000
def CLONE_NEWCGROUP : Nat := 0x02000000
def SIGCHLD : Nat := 17

def MS_NOSUID : Nat := 2
def MS_NODEV : Nat := 4
def MS_NOEXEC : Nat := 8
def MS_REC : Nat := 16384
def MS_STRICTATIME : Nat := 16777216
def MS_MGC_VAL : Nat := 0xC0ED0000

def DT_DIR : Nat := 4

/-! ## Data of the program -/

/-- File contents and write payloads: the bytes in order. -/
abbrev Bytes := List Char

/-- The fields of `struct child_args`. -/
structure child_args where
  argv : List String
  overlayfs : Option String
  pipe_fd : Int × Int
  empty_home : Bool
  empty_proc : Bool
  strict_mode : Bool
deriving DecidableEq, Repr

/-- The two fields of `struct dirent` the program looks at. -/
structure dirent where
  d_name : String
  d_type : Nat
deriving DecidableEq, Repr

/-- The exceptions the program throws: `errno_except` and `std::runtime_error`. -/
inductive Exn where
  | errno_except (s : String)
  | runtime_error (s : String)
deriving DecidableEq, Repr

/-- One call issued by a process, with the result the system gives it. -/
inductive Event where
  | log (level : String) (msg : String)
  | cout (text : String)
  | pipe (ret : Int)
  | clone (flags : Nat) (args : child_args) (ret : Int)
  | close (fd : Int)
  | read (fd : Int) (ret : Int)
  | mkdtemp (template : String) (ret : Option String)
  | mkdir (path : String) (mode : Nat) (ret : Int)
  | mount (source target fstype : String) (flags : Nat) (data : Option String) (ret : Int)
  | ofstream_open (path : String) (app : Bool) (ok : Bool)
  | ofstream_write (path : String) (data : Bytes) (ok : Bool)
  | fork (ret : Int)
  | execvp (file : String) (argv : List String)
  | wait (ret : Int) (status : Option Int)
deriving DecidableEq, Repr

/-- A computation that issues calls and either returns a value or throws. -/
abbrev Run (α : Type) := List Event × Except Exn α

/-- Sequencing: the calls of `x`, then those of `f`, unless `x` threw. -/
def Run.andThen {α β : Type} (x : Run α) (f : α → Run β) : Run β :=
  match x.2 with
  | .error e => (x.1, .error e)
  | .ok a => (x.1 ++ (f a).1, (f a).2)

instance : Monad Run where
  pure a := ([], .ok a)
  bind := Run.andThen

/-- Issue one call. -/
def emit (e : Event) : Run Unit := ([e], .ok ())

/-- The C++ `throw`. -/
def raise {α : Type} (e : Exn) : Run α := ([], .error e)

/-- The macro `LOG_BASE(t, l)`: a line on the diagnostic stream unless silent. -/
def LOG_BASE (silent : Bool) (t : String) (l : String) : Run Unit :=
  if !silent then emit (.log t l) else pure ()

def LOG_INFO (silent : Bool) (l : String) : Run Unit := LOG_BASE silent "INFO" l
def LOG_ERR (silent : Bool) (l : String) : Run Unit := LOG_BASE silent "ERR" l
def LOG_WARN (silent : Bool) (l : String) : Run Unit := LOG_BASE silent "WARN" l

/-- The value of `errno` and its `strerror` text at the moment of a throw. -/
structure ErrnoInfo where
  errno : Int
  strerror : String

/-- The method `what()`: `errno_except::fmt_exception` adds the errno suffix. -/
def what (ei : ErrnoInfo) : Exn → String
  | .errno_except s => s ++ " (errno: " ++ toString ei.errno ++ ", " ++ ei.strerror ++ ")"
  | .runtime_error s => s

def HOME_DIR : String := "home"
def PROC_DIR : String := "proc"
def SKIP_DIRS : List String := [PROC_DIR, "dev", "run", "mnt", "var", "sys"]

/-! ## The namespace flags (main.cpp 382-389) -/

/-- The value of `clone_flags` that `main` computes from the parsed options. -/
def clone_flags (ca : child_args) : Nat :=
  let f0 := CLONE_NEWNS ||| CLONE_NEWUSER ||| SIGCHLD
  let f1 := if ca.empty_proc then f0 ||| CLONE_NEWPID else f0
  if ca.strict_mode then (f1 ||| CLONE_NEWIPC) ||| CLONE_NEWPID else f1

/-- The test `flags & bit` of C. -/
def has_flag (flags bit : Nat) : Bool := flags &&& bit != 0

/-- The namespace bits that `clone(2)` accepts in its flag word. -/
def NS_BITS : List Nat :=
  [CLONE_NEWNS, CLONE_NEWUSER, CLONE_NEWPID, CLONE_NEWIPC, CLONE_NEWUTS, CLONE_NEWNET,
   CLONE_NEWCGROUP]

/-- The namespaces a flag word asks for. -/
def namespace_set (flags : Nat) : List Nat := NS_BITS.filter (has_flag flags)

/-! ## The identity mapper (main.cpp 275-303) -/

/-- What `std::ostream::write` reports for a payload of a few bytes on a `std::ofstream`:
the stream is buffered, so the bytes are stored in its buffer and the stream stays good
whenever it is open. -/
def ofstream_buffered_write (is_open : Bool) : Bool := is_open

/-- The lambda `w_func` of `set_ugid`: open `fname` with a fresh `std::ofstream`, hand
either the formatted map line or `stropt` to `write`, and destroy the stream on leaving
the lambda.  `open_ok` says whether the constructor opened the file.  The payload stays in
the stream buffer until the destructor flushes it; `write_ok` says whether the file takes
it then, which the destructor does not report. -/
def w_func (fname : String) (id : Int) (stropt : Option String) (open_ok write_ok : Bool) :
    Run Unit :=
  let map_buf := toString id ++ " " ++ toString id ++ " 1"
  emit (.ofstream_open fname false open_ok) >>= fun _ =>
  if !open_ok then raise (.errno_except "Error in std::ofstream::<constructor>")
  else
    match stropt with
    | none =>
      if !ofstream_buffered_write open_ok then
        raise (.errno_except "Error in std::ofstream::write")
      else emit (.ofstream_write fname map_buf.toList write_ok)
    | some s =>
      if !ofstream_buffered_write open_ok then
        raise (.errno_except "Error in std::ofstream::write")
      else emit (.ofstream_write fname s.toList write_ok)

/-- The function `set_ugid`.  `open_ok i` is the outcome of the stream constructor in the
`i`-th call of `w_func` (0, 1, 2) and `write_ok i` says whether the file takes the bytes
when that stream is destroyed. -/
def set_ugid (open_ok write_ok : Nat → Bool) (child_pid : Int) (uid gid : Nat) : Run Unit :=
  w_func ("/proc/" ++ toString child_pid ++ "/uid_map") (uid : Int) none
    (open_ok 0) (write_ok 0) >>= fun _ =>
  w_func ("/proc/" ++ toString child_pid ++ "/setgroups") (-1) (some "deny")
    (open_ok 1) (write_ok 1) >>= fun _ =>
  w_func ("/proc/" ++ toString child_pid ++ "/gid_map") (gid : Int) none
    (open_ok 2) (write_ok 2)

/-! ## The overlay composer (main.cpp 120-187) -/

/-- One entry handed out by `readdir("/")`, with the values `mount(2)` and the three
`mkdir(2)` calls of `mount_func` return if an overlay is attempted for it. -/
structure RootEntry where
  ent : dirent
  mount_ret : Int
  bpath_ret : Int
  upper_ret : Int
  work_ret : Int
deriving DecidableEq, Repr

/-- What the operating system answers to the namespaced process. -/
structure ChildEnv where
  /-- result of `read(pipe_fd[0], &ch, 1)` -/
  read_ret : Int
  /-- result of `mkdtemp("/dev/shm/emajail_XXXXXX")`, `none` for a null pointer -/
  mkdtemp_ret : Option String
  /-- result of the tmpfs mount over the scratch directory -/
  scratch_mount_ret : Int
  /-- result of `mkdir(basepath, 0755)` -/
  mkdir_base_ret : Int
  /-- the entries `readdir` yields for `/`, in enumeration order -/
  root : List RootEntry
  /-- `getuid()` -/
  uid : Nat
  /-- result of the tmpfs mount over `/home` or `/root` -/
  home_mount_ret : Int
  /-- `getenv("HOME")` -/
  home : Option String
  /-- result of `mkdir(cur_home, 0755)` -/
  mkdir_home_ret : Int
  /-- result of the mount of a fresh `/proc` -/
  proc_mount_ret : Int
  /-- bytes of `/etc/pulse/client.conf` when it can be opened -/
  sys_pulse : Option Bytes
  /-- results of `mkdir` on the local `.config` and `.config/pulse` -/
  mkdir_config_ret : Int
  mkdir_pulse_ret : Int
  /-- result of `stat` on the local `client.conf` -/
  local_pulse_stat : Int
  /-- whether the append-mode stream on the local `client.conf` opens -/
  local_open_ok : Bool
  /-- whether the `k`-th write on that stream succeeds -/
  local_write_ok : Nat → Bool
  /-- result of `fork()` -/
  fork_ret : Int
  /-- result and status of `wait(&rc)` -/
  wait_ret : Int
  wait_status : Int
  /-- whether `execvp` replaces the process image -/
  exec_ok : Bool
  err : ErrnoInfo

/-- The lambda `is_skip_dir` of `setup_overlays`. -/
def is_skip_dir (empty_home : Bool) (p : String) : Bool :=
  if empty_home && p == HOME_DIR then true
  else SKIP_DIRS.any (fun d => p == d)

/-- The lambda `mount_func` of `setup_overlays`; `bpath_ret`, `upper_ret` and `work_ret`
are what the three `mkdir` calls return, which the lambda discards, and `ret` is what
`mount` returns. -/
def mount_func (basepath : String) (dir : String) (bpath_ret upper_ret work_ret : Int)
    (ret : Int) : Run Unit :=
  let bdir := "/" ++ dir
  let bpath := basepath ++ "/" ++ dir
  let upper_d := bpath ++ "/upper"
  let work_d := bpath ++ "/work"
  let mount_opt := "lowerdir=" ++ bdir ++ ",upperdir=" ++ upper_d ++ ",workdir=" ++ work_d
  emit (.mkdir bpath 0o755 bpath_ret) >>= fun _ =>
  emit (.mkdir upper_d 0o755 upper_ret) >>= fun _ =>
  emit (.mkdir work_d 0o755 work_ret) >>= fun _ =>
  emit (.mount "overlay" bdir "overlay" MS_MGC_VAL (some mount_opt) ret) >>= fun _ =>
  if ret = -1 then raise (.errno_except "Error in mount") else pure ()

/-- The three `continue` tests of the `readdir` loop: the entry gets an overlay. -/
def selected (empty_home : Bool) (cur_el : dirent) : Bool :=
  !(cur_el.d_name == "." || cur_el.d_name == "..") && !(cur_el.d_type != DT_DIR)
    && !(is_skip_dir empty_home cur_el.d_name)

/-- The `while((cur_el = readdir(...)))` loop of `setup_overlays`. -/
def overlay_loop (silent : Bool) (basepath : String) (empty_home : Bool) :
    List RootEntry → Run Unit
  | [] => pure ()
  | cur_el :: rest =>
    if cur_el.ent.d_name == "." || cur_el.ent.d_name == ".." then
      overlay_loop silent basepath empty_home rest
    else if cur_el.ent.d_type != DT_DIR then
      overlay_loop silent basepath empty_home rest
    else if is_skip_dir empty_home cur_el.ent.d_name then
      overlay_loop silent basepath empty_home rest
    else
      LOG_INFO silent ("Overlaying " ++ cur_el.ent.d_name ++ " ...") >>= fun _ =>
      mount_func basepath cur_el.ent.d_name cur_el.bpath_ret cur_el.upper_ret
        cur_el.work_ret cur_el.mount_ret >>= fun _ =>
      overlay_loop silent basepath empty_home rest

/-- The block `if(empty_home) { ... }` of `setup_overlays` (main.cpp 163-178). -/
def empty_home_block (env : ChildEnv) (silent : Bool) : Run Unit :=
  let u := env.uid
  let home_dir := if u ≠ 0 then "/home" else "/root"
  let mode_home := if u ≠ 0 then "mode=755" else "mode=700"
  emit (.mount "tmpfs" home_dir "tmpfs"
    (MS_NOSUID ||| MS_NODEV ||| MS_NOEXEC ||| MS_STRICTATIME ||| MS_REC) (some mode_home)
    env.home_mount_ret) >>= fun _ =>
  if env.home_mount_ret = -1 then raise (.errno_except "Error when mounting /home on tmpfs")
  else
    (if u ≠ 0 then
      match env.home with
      | none => raise (.runtime_error "Environment variable $HOME not set")
      | some cur_home =>
        emit (.mkdir cur_home 0o755 env.mkdir_home_ret) >>= fun _ =>
        if env.mkdir_home_ret ≠ 0 then raise (.errno_except "Can't create /home/... directory")
        else pure ()
    else pure ()) >>= fun _ =>
    LOG_INFO silent ("Created empty /home for user " ++ toString u)

/-- The block `if(empty_proc) { ... }` of `setup_overlays` (main.cpp 181-186). -/
def empty_proc_block (env : ChildEnv) : Run Unit :=
  let fproc := "/" ++ PROC_DIR
  emit (.mount "proc" fproc "proc" (MS_NOSUID ||| MS_NOEXEC ||| MS_NODEV ||| MS_REC) none
    env.proc_mount_ret) >>= fun _ =>
  if env.proc_mount_ret = -1 then raise (.errno_except "Can't create empty /proc directory")
  else pure ()

/-- The function `setup_overlays`. -/
def setup_overlays (env : ChildEnv) (silent : Bool) (basepath : String)
    (empty_home empty_proc : Bool) : Run Unit :=
  emit (.mkdir basepath 0o755 env.mkdir_base_ret) >>= fun _ =>
  overlay_loop silent basepath empty_home env.root >>= fun _ =>
  (if empty_home then empty_home_block env silent else pure ()) >>= fun _ =>
  (if empty_proc then empty_proc_block env else pure ())

/-! ## The audio adapter (main.cpp 189-223) -/

/-- The directive appended to the local pulse configuration. -/
def SHM_DIRECTIVE : Bytes := "\nenable-shm = no\n".toList

/-- The loop `while(g_pulse) { read 2048 bytes; write them; }` of `setup_pulseaudio`.
`g` is what is left to read of the system file, `k` counts the writes made on the local
stream so far, and the result is that count after the loop.  The local stream is good on
entry exactly when it opened (`open_ok`), since any failed write throws at once; a write
on a stream that is not good transfers nothing.  A read that meets the end of the file
(fewer than 2048 bytes left) ends the loop after its write.  The first argument bounds
the number of iterations. -/
def copy_loop (path : String) (open_ok : Bool) (write_ok : Nat → Bool) :
    Nat → Nat → Bytes → Run Nat
  | 0, k, _ => pure k
  | fuel + 1, k, g =>
    let buf := g.take 2048
    (if open_ok then emit (.ofstream_write path buf (write_ok k)) else pure ()) >>= fun _ =>
    if !(open_ok && write_ok k) then
      raise (.errno_except "Can't write into local pulse file")
    else if g.length < 2048 then pure (k + 1)
    else copy_loop path open_ok write_ok fuel (k + 1) (g.drop 2048)

/-- The function `setup_pulseaudio`. -/
def setup_pulseaudio (env : ChildEnv) (silent : Bool) : Run Unit :=
  match env.sys_pulse with
  | none => LOG_WARN silent "Pulseaudio not installed - skipping config creation"
  | some g_pulse =>
    match env.home with
    | none => raise (.runtime_error "Environment variable $HOME not set")
    | some cur_home =>
      let lcl_config := cur_home ++ "/.config"
      let lcl_pulse := lcl_config ++ "/pulse"
      let lcl_pulse_f := lcl_pulse ++ "/client.conf"
      emit (.mkdir lcl_config 0o700 env.mkdir_config_ret) >>= fun _ =>
      emit (.mkdir lcl_pulse 0o700 env.mkdir_pulse_ret) >>= fun _ =>
      let l_pulse_exists : Bool := env.local_pulse_stat == 0
      emit (.ofstream_open lcl_pulse_f true env.local_open_ok) >>= fun _ =>
      (if !l_pulse_exists then
        copy_loop lcl_pulse_f env.local_open_ok env.local_write_ok (g_pulse.length + 1) 0
          g_pulse
      else pure 0) >>= fun k =>
      (if env.local_open_ok then
        emit (.ofstream_write lcl_pulse_f SHM_DIRECTIVE (env.local_write_ok k))
      else pure ()) >>= fun _ =>
      LOG_INFO silent "Local pulse file created"

/-- The bytes of the file `path` after the calls of `trace`, when it held `before` and
every stream on it was opened for appending: each successful write adds its payload. -/
def file_after (path : String) (before : Bytes) : List Event → Bytes
  | [] => before
  | .ofstream_write p data true :: rest =>
    if p = path then file_after path (before ++ data) rest else file_after path before rest
  | _ :: rest => file_after path before rest

/-! ## The namespaced process (main.cpp 225-270) -/

/-- How a process leaves `child_func`: by returning a status, or by `execvp` replacing
its image with the target command. -/
inductive Exit where
  | returned (rc : Int)
  | replaced
deriving DecidableEq, Repr

/-- The constructor of `tmp_dir`. -/
def tmp_dir (env : ChildEnv) : Run String :=
  emit (.mkdtemp "/dev/shm/emajail_XXXXXX" env.mkdtemp_ret) >>= fun _ =>
  match env.mkdtemp_ret with
  | none => raise (.errno_except "Error in mkdtemp")
  | some path_ => pure path_

/-- The statements of the `try` block of `child_func` before the `fork`
(main.cpp 227-245): the barrier, the scratch directory, the overlays, the audio adapter. -/
def child_setup (env : ChildEnv) (silent : Bool) (args : child_args) : Run Unit :=
  emit (.close args.pipe_fd.2) >>= fun _ =>
  emit (.read args.pipe_fd.1 env.read_ret) >>= fun _ =>
  if env.read_ret ≠ 0 then raise (.runtime_error "Sync pipe not properly closed")
  else
    tmp_dir env >>= fun t_dir =>
    (match args.overlayfs with
     | some overlayfs => setup_overlays env silent overlayfs args.empty_home args.empty_proc
     | none =>
       emit (.mount "tmpfs" t_dir "tmpfs"
         (MS_NOSUID ||| MS_NODEV ||| MS_NOEXEC ||| MS_STRICTATIME ||| MS_REC) (some "")
         env.scratch_mount_ret) >>= fun _ =>
       if env.scratch_mount_ret = -1 then raise (.errno_except "Error in mount tmpfs")
       else setup_overlays env silent t_dir args.empty_home args.empty_proc) >>= fun _ =>
    (if args.strict_mode || args.empty_proc then setup_pulseaudio env silent
     else pure ())

/-- The statements of the `try` block of `child_func` from the `fork` on
(main.cpp 247-261). -/
def child_exec (env : ChildEnv) (silent : Bool) (args : child_args) : Run Exit :=
  emit (.fork env.fork_ret) >>= fun _ =>
  let pid := env.fork_ret
  if pid = -1 then raise (.errno_except "Error in fork")
  else if pid = 0 then
    emit (.execvp (args.argv.headD "") args.argv) >>= fun _ =>
    if env.exec_ok then pure Exit.replaced else pure (Exit.returned (-1))
  else
    emit (.wait env.wait_ret (some env.wait_status)) >>= fun _ =>
    if pid ≠ env.wait_ret then raise (.errno_except "Error in wait")
    else
      LOG_INFO silent ("Child process (" ++ args.argv.headD "" ++ ") exited with code "
        ++ toString env.wait_status) >>= fun _ =>
      pure (Exit.returned 0)

/-- The `try` block of `child_func`. -/
def child_body (env : ChildEnv) (silent : Bool) (args : child_args) : Run Exit :=
  child_setup env silent args >>= fun _ => child_exec env silent args

/-- The function `child_func`: the `try` block and its `catch` handlers. -/
def child_func (env : ChildEnv) (silent : Bool) (args : child_args) : List Event × Exit :=
  match child_body env silent args with
  | (evs, .ok x) => (evs, x)
  | (evs, .error e) =>
    (evs ++ (LOG_ERR silent ("Exception: " ++ what env.err e)).1, Exit.returned (-1))

/-! ## The supervisor (main.cpp 305-414) -/

/-- One return of `getopt_long`: the value `opt`, the name of the long option at
`opt_idx`, and `optarg`. -/
structure getopt_result where
  opt : Int
  name : String
  optarg : String
deriving DecidableEq, Repr

/-- What the operating system answers to the supervisor. -/
structure SupEnv where
  /-- `argv[0]` -/
  argv0 : String
  /-- the successive returns of `getopt_long` before it returns -1 -/
  opts : List getopt_result
  /-- the arguments from `optind` on: the command and its arguments -/
  rest : List String
  /-- result of `pipe`, and the two descriptors it stores on success -/
  pipe_ret : Int
  pipe_fds : Int × Int
  /-- result of `clone` -/
  clone_ret : Int
  /-- `getuid()` and `getgid()` -/
  uid : Nat
  gid : Nat
  /-- outcomes of the stream constructor and write in the calls of `w_func` -/
  open_ok : Nat → Bool
  write_ok : Nat → Bool
  /-- result of `wait(NULL)` -/
  wait_ret : Int
  err : ErrnoInfo

/-- The text printed by `skip_dirs`. -/
def skip_dirs_text : String :=
  "Directories to not overlay:\n\n" ++ String.join (SKIP_DIRS.map (fun d => d ++ "\n"))

/-- The text printed by `usage`. -/
def usage_text (p : String) : String :=
  "Usage: " ++ p ++ " [options] cmd [arg...]\n\n"
  ++ "Create a child process in a sandboxed environment\n"
  ++ "without modifying any existing file (using overlayFS)\n\n"
  ++ "Options can be:\n\n"
  ++ "--empty-home              Sets up an empty /home on \x27tmpfs\x27\n\n"
  ++ "--empty-proc              Sets up an empty /proc on \x27proc\x27. Please note\n"
  ++ "                          this will set the flag CLONE_NEWPID and implies\n"
  ++ "                          software may not work (PulseAudio, ...)\n\n"
  ++ "-h,--help                 Print this screen and quit\n\n"
  ++ "-j,--jail                 Quick combination as specifying the three options\n"
  ++ "                          --empty-home, --empty-proc and -s\n\n"
  ++ "-o,--overlay-dir path     Use a fixed path for overlayFS\n"
  ++ "                          (otherwise on /dev/shm/emajail_XXXXXX)\n\n"
  ++ "--skip-dirs               Print directories to not overlay and quit\n\n"
  ++ "--silent                  Do not print any logline\n\n"
  ++ "-s,--strict               Add IPC isolation level and create a new PID group; this\n"
  ++ "                          option might imply some software to not work or\n"
  ++ "                          fail at unexpected points, but increases security\n"
  ++ "                          levels greatly\n\n"

/-- How the option loop of `main` ends. -/
inductive Parsed where
  | options (ca : child_args) (silent : Bool)
  | exited
  | unknown (silent : Bool)
deriving DecidableEq, Repr

/-- The `while ((opt = getopt_long(...)) != -1)` loop of `main`, with the calls it
issues.  `usage` and `skip_dirs` end the process with `std::exit(0)`. -/
def parse_options (argv0 : String) :
    List getopt_result → child_args → Bool → List Event × Parsed
  | [], ca, silent => ([], .options ca silent)
  | r :: rs, ca, silent =>
    if r.opt = 0 then
      if r.name == "silent" then parse_options argv0 rs ca true
      else if r.name == "empty-home" then
        parse_options argv0 rs { ca with empty_home := true } silent
      else if r.name == "empty-proc" then
        parse_options argv0 rs { ca with empty_proc := true } silent
      else if r.name == "skip-dirs" then ([.cout skip_dirs_text], .exited)
      else parse_options argv0 rs ca silent
    else if r.opt = ('h').toNat then ([.cout (usage_text argv0)], .exited)
    else if r.opt = ('j').toNat then
      parse_options argv0 rs
        { ca with empty_home := true, empty_proc := true, strict_mode := true } silent
    else if r.opt = ('o').toNat then
      parse_options argv0 rs { ca with overlayfs := some r.optarg } silent
    else if r.opt = ('s').toNat then
      parse_options argv0 rs { ca with strict_mode := true } silent
    else ([], .unknown silent)

/-- The part of the `try` block of `main` after the option loop (main.cpp 374-405). -/
def main_body (env : SupEnv) (ca0 : child_args) (silent : Bool) : Run Int :=
  if env.rest = [] then raise (.runtime_error "No program specified, exiting")
  else
    let ca1 := { ca0 with argv := env.rest }
    emit (.pipe env.pipe_ret) >>= fun _ =>
    if env.pipe_ret = -1 then raise (.errno_except "Error in pipe")
    else
      let ca := { ca1 with pipe_fd := env.pipe_fds }
      (if has_flag (clone_flags ca) CLONE_NEWPID then
        LOG_WARN silent ("CLONE_NEWPID flag has been added: not all software relying on "
          ++ "same PID namespace may work (i.e. PulseAudio, ...)")
       else pure ()) >>= fun _ =>
      emit (.clone (clone_flags ca) ca env.clone_ret) >>= fun _ =>
      let child_pid := env.clone_ret
      if child_pid = -1 then raise (.errno_except "Error in clone")
      else
        set_ugid env.open_ok env.write_ok child_pid env.uid env.gid >>= fun _ =>
        emit (.close ca.pipe_fd.2) >>= fun _ =>
        emit (.wait env.wait_ret none) >>= fun _ =>
        if child_pid ≠ env.wait_ret then raise (.errno_except "Error in wait")
        else pure 0

/-- The initial value of `ca` in `main`. -/
def ca_init : child_args :=
  { argv := [], overlayfs := none, pipe_fd := (-1, -1), empty_home := false,
    empty_proc := false, strict_mode := false }

/-- The function `main`: the calls the supervisor issues and its exit status. -/
def main (env : SupEnv) : List Event × Int :=
  let start := (LOG_INFO false "Starting emajail ...").1
  match parse_options env.argv0 env.opts ca_init false with
  | (evs, .exited) => (start ++ evs, 0)
  | (evs, .unknown silent) =>
    (start ++ evs ++ (LOG_ERR silent ("Exception: " ++
      what env.err (.runtime_error "Unknown option"))).1, -1)
  | (evs, .options ca silent) =>
    match main_body env ca silent with
    | (evs2, .ok rc) => (start ++ evs ++ evs2, rc)
    | (evs2, .error e) =>
      (start ++ evs ++ evs2 ++ (LOG_ERR silent ("Exception: " ++ what env.err e)).1, -1)

/-! ## Vocabulary for the statements -/

/-- The calls `setup_overlays` issues for one entry it overlays: the `LOG_INFO` line and
the calls of `mount_func`. -/
def overlay_events (silent : Bool) (basepath : String) (e : RootEntry) : List Event :=
  (LOG_INFO silent ("Overlaying " ++ e.ent.d_name ++ " ...")).1
    ++ (mount_func basepath e.ent.d_name e.bpath_ret e.upper_ret e.work_ret e.mount_ret).1

/-- The targets of the overlay mount calls in a list of calls, in order. -/
def overlay_targets (trace : List Event) : List String :=
  trace.filterMap fun e =>
    match e with
    | .mount _ target fstype _ _ _ => if fstype = "overlay" then some target else none
    | _ => none

/-- A call of `mkdtemp`, `mkdir` or `mount`. -/
def is_fs_call : Event → Bool
  | .mkdtemp _ _ => true
  | .mkdir _ _ _ => true
  | .mount _ _ _ _ _ _ => true
  | _ => false

/-- A call that starts or becomes the target command: `fork` or `execvp`. -/
def is_fork_or_exec : Event → Bool
  | .fork _ => true
  | .execvp _ _ => true
  | _ => false

/-- A call of the identity mapper: a stream opened or written. -/
def is_mapping_call : Event → Bool
  | .ofstream_open _ _ _ => true
  | .ofstream_write _ _ _ => true
  | _ => false

/-- A `close` of a pipe end. -/
def is_close : Event → Bool
  | .close _ => true
  | _ => false

/-- The calls of a trace that come before the first one satisfying `p`. -/
def before (p : Event → Bool) (trace : List Event) : List Event :=
  trace.takeWhile fun e => !p e

/-- The six stream calls of the identity mapper in program order: for the `i`-th file the
constructor with outcome `open_ok i`, and the bytes handed to the file with outcome
`write_ok i`. -/
def mapping_calls (open_ok write_ok : Nat → Bool) (child_pid : Int) (uid gid : Nat) :
    List Event :=
  [ .ofstream_open ("/proc/" ++ toString child_pid ++ "/uid_map") false (open_ok 0),
    .ofstream_write ("/proc/" ++ toString child_pid ++ "/uid_map")
      (toString uid ++ " " ++ toString uid ++ " 1").toList (write_ok 0),
    .ofstream_open ("/proc/" ++ toString child_pid ++ "/setgroups") false (open_ok 1),
    .ofstream_write ("/proc/" ++ toString child_pid ++ "/setgroups") "deny".toList
      (write_ok 1),
    .ofstream_open ("/proc/" ++ toString child_pid ++ "/gid_map") false (open_ok 2),
    .ofstream_write ("/proc/" ++ toString child_pid ++ "/gid_map")
      (toString gid ++ " " ++ toString gid ++ " 1").toList (write_ok 2) ]

/-- One of the setup failures of the namespaced process holds in `env`: the barrier read
is not an end-of-stream, `mkdtemp` fails, the scratch tmpfs mount fails, the overlay mount
of a selected entry fails, the tmpfs mount over the home fails, `HOME` is unset where it is
needed, the home directory cannot be created, the proc mount fails, or `fork` fails. -/
def setup_fails (env : ChildEnv) (args : child_args) : Bool :=
  env.read_ret != 0
  || env.mkdtemp_ret.isNone
  || (args.overlayfs.isNone && env.scratch_mount_ret == -1)
  || env.root.any (fun e => selected args.empty_home e.ent && e.mount_ret == -1)
  || (args.empty_home && env.home_mount_ret == -1)
  || (args.empty_home && env.uid != 0 && env.home.isNone)
  || (args.empty_home && env.uid != 0 && env.mkdir_home_ret != 0)
  || (args.empty_proc && env.proc_mount_ret == -1)
  || ((args.strict_mode || args.empty_proc) && env.sys_pulse.isSome && env.home.isNone)
  || env.fork_ret == -1

/-- The outcome "every call succeeds". -/
def ok3 : Nat → Bool := fun _ => true

/-- A property that holds of every kind of call the setup of the namespaced process can
issue. -/
structure SetupSafe (P : Event → Prop) : Prop where
  log : ∀ a b, P (.log a b)
  close : ∀ fd, P (.close fd)
  read : ∀ fd r, P (.read fd r)
  mkdtemp : ∀ t r, P (.mkdtemp t r)
  mkdir : ∀ p m r, P (.mkdir p m r)
  mount : ∀ s t f fl d r, P (.mount s t f fl d r)
  sopen : ∀ p a o, P (.ofstream_open p a o)
  swrite : ∀ p d o, P (.ofstream_write p d o)

/-- The calls of `main_body` from `pipe` up to and including `clone`, when `pipe`
succeeds: the pipe, the warning about `CLONE_NEWPID`, the clone. -/
def spawn_calls (env : SupEnv) (ca0 : child_args) (silent : Bool) : List Event :=
  .pipe env.pipe_ret ::
    ((if has_flag (clone_flags { ca0 with argv := env.rest, pipe_fd := env.pipe_fds })
        CLONE_NEWPID then
      LOG_WARN silent ("CLONE_NEWPID flag has been added: not all software relying on "
        ++ "same PID namespace may work (i.e. PulseAudio, ...)")
     else pure ()).1
    ++ [.clone (clone_flags { ca0 with argv := env.rest, pipe_fd := env.pipe_fds })
        { ca0 with argv := env.rest, pipe_fd := env.pipe_fds } env.clone_ret])

/-- A property that holds of every kind of call the supervisor can issue; for `clone` it
is asked only of calls whose flag word is `clone_flags` of the arguments passed. -/
structure SupSafe (P : Event → Prop) : Prop where
  log : ∀ a b, P (.log a b)
  cout : ∀ t, P (.cout t)
  pipe : ∀ r, P (.pipe r)
  clone : ∀ ca r, P (.clone (clone_flags ca) ca r)
  close : ∀ fd, P (.close fd)
  wait : ∀ r s, P (.wait r s)
  sopen : ∀ p a o, P (.ofstream_open p a o)
  swrite : ∀ p d o, P (.ofstream_write p d o)

/-! ## Concrete environments -/

/-- A directory entry of the root with the given name and overlay mount result. -/
def dir_entry (name : String) (ret : Int) : RootEntry := ⟨⟨name, DT_DIR⟩, ret, 0, 0, 0⟩

/-- A host on which every call succeeds: the root holds the directories `a`, `b`, `proc`
and `dev`, the pulse client configuration is installed, the target exits with status 1
(wait status 256). -/
def child_env_ok : ChildEnv where
  read_ret := 0
  mkdtemp_ret := some "/dev/shm/emajail_k3J9xQ"
  scratch_mount_ret := 0
  mkdir_base_ret := 0
  root := [dir_entry "." 0, dir_entry ".." 0, dir_entry "a" 0, dir_entry "b" 0,
    dir_entry "proc" 0, dir_entry "dev" 0]
  uid := 1000
  home_mount_ret := 0
  home := some "/home/u"
  mkdir_home_ret := 0
  proc_mount_ret := 0
  sys_pulse := some "autospawn = no\n".toList
  mkdir_config_ret := 0
  mkdir_pulse_ret := 0
  local_pulse_stat := -1
  local_open_ok := true
  local_write_ok := ok3
  fork_ret := 4243
  wait_ret := 4243
  wait_status := 256
  exec_ok := true
  err := ⟨1, "Operation not permitted"⟩

/-- The same host with a root holding `a` and `b` only, where the overlay mount over
`/a` fails. -/
def child_env_mount_fails : ChildEnv :=
  { child_env_ok with root := [dir_entry "a" (-1), dir_entry "b" 0] }

/-- The same host with a root holding `a` and `home`. -/
def child_env_home : ChildEnv :=
  { child_env_ok with root := [dir_entry "a" 0, dir_entry "home" 0] }

/-- The same host where the barrier read delivers one byte. -/
def child_env_barrier_data : ChildEnv := { child_env_ok with read_ret := 1 }

/-- The same host where a local pulse `client.conf` already exists. -/
def child_env_pulse_exists : ChildEnv := { child_env_ok with local_pulse_stat := 0 }

/-- The same host with a root holding `a` only, run with a base path under which nothing
can be created: every `mkdir` call fails, and so does the overlay mount. -/
def child_env_mkdir_fails : ChildEnv :=
  { child_env_ok with mkdir_base_ret := -1, root := [⟨⟨"a", DT_DIR⟩, -1, -1, -1, -1⟩] }

/-- The same host seen from the process that `fork` created. -/
def child_env_forked : ChildEnv := { child_env_ok with fork_ret := 0 }

/-- The supervisor run `emajail -s /bin/false` on a host where every call succeeds.  For
a short option `opt_idx` keeps its initial value 0, the index of `empty-home`. -/
def sup_env_strict : SupEnv where
  argv0 := "emajail"
  opts := [⟨('s').toNat, "empty-home", ""⟩]
  rest := ["/bin/false"]
  pipe_ret := 0
  pipe_fds := (3, 4)
  clone_ret := 4242
  uid := 1000
  gid := 100
  open_ok := ok3
  write_ok := ok3
  wait_ret := 4242
  err := ⟨0, "Success"⟩

/-- The same run where the kernel refuses the bytes written to `setgroups`. -/
def sup_env_deny_fails : SupEnv := { sup_env_strict with write_ok := fun i => i != 1 }

/-- The arguments `main` hands to `clone` in the run `sup_env_strict`. -/
def args_strict : child_args :=
  { argv := ["/bin/false"], overlayfs := none, pipe_fd := (3, 4), empty_home := false,
    empty_proc := false, strict_mode := true }

/-! ## Lemmas and theorems -/

theorem bind_eq {α β : Type} (x : Run α) (f : α → Run β) : (x >>= f) = Run.andThen x f := rfl

theorem pure_eq {α : Type} (a : α) : (pure a : Run α) = ([], .ok a) := rfl

@[simp] theorem andThen_ok {α β : Type} (evs : List Event) (a : α) (f : α → Run β) :
    Run.andThen (evs, .ok a) f = (evs ++ (f a).1, (f a).2) := rfl

@[simp] theorem andThen_error {α β : Type} (evs : List Event) (e : Exn) (f : α → Run β) :
    Run.andThen (evs, .error e) f = (evs, .error e) := rfl

@[simp] theorem andThen_emit {β : Type} (e : Event) (f : Unit → Run β) :
    Run.andThen (emit e) f = (e :: (f ()).1, (f ()).2) := rfl

theorem andThen_fst_initial {α β : Type} (x : Run α) (f : α → Run β) :
    x.1 <+: (Run.andThen x f).1 := by
  obtain ⟨evs, r⟩ := x
  cases r with
  | error e => simp
  | ok a => simp

theorem andThen_snd_ok {α β : Type} (x : Run α) (f : α → Run β) (b : β)
    (h : (Run.andThen x f).2 = .ok b) : ∃ a, x.2 = .ok a ∧ (f a).2 = .ok b := by
  obtain ⟨evs, r⟩ := x
  cases r with
  | error e => simp at h
  | ok a => exact ⟨a, rfl, by simpa using h⟩

theorem andThen_of_ok {α β : Type} (x : Run α) (f : α → Run β) (a : α) (h : x.2 = .ok a) :
    Run.andThen x f = (x.1 ++ (f a).1, (f a).2) := by
  obtain ⟨evs, r⟩ := x
  simp only at h
  subst h
  rfl

theorem andThen_of_error {α β : Type} (x : Run α) (f : α → Run β) (e : Exn)
    (h : x.2 = .error e) : Run.andThen x f = (x.1, .error e) := by
  obtain ⟨evs, r⟩ := x
  simp only at h
  subst h
  rfl

theorem mount_func_fst (basepath dir : String) (r1 r2 r3 ret : Int) :
    (mount_func basepath dir r1 r2 r3 ret).1 =
      [ .mkdir (basepath ++ "/" ++ dir) 0o755 r1,
        .mkdir (basepath ++ "/" ++ dir ++ "/upper") 0o755 r2,
        .mkdir (basepath ++ "/" ++ dir ++ "/work") 0o755 r3,
        .mount "overlay" ("/" ++ dir) "overlay" MS_MGC_VAL
          (some ("lowerdir=" ++ ("/" ++ dir) ++ ",upperdir="
            ++ (basepath ++ "/" ++ dir ++ "/upper") ++ ",workdir="
            ++ (basepath ++ "/" ++ dir ++ "/work"))) ret ] := by
  simp only [mount_func, bind_eq, andThen_emit]
  split <;> rfl

theorem mount_func_snd (basepath dir : String) (r1 r2 r3 ret : Int) :
    (mount_func basepath dir r1 r2 r3 ret).2 =
      if ret = -1 then .error (.errno_except "Error in mount") else .ok () := by
  simp only [mount_func, bind_eq, andThen_emit]
  split <;> rfl

theorem mount_opt_eq (basepath dir : String) :
    "lowerdir=" ++ ("/" ++ dir) ++ ",upperdir=" ++ (basepath ++ "/" ++ dir ++ "/upper")
      ++ ",workdir=" ++ (basepath ++ "/" ++ dir ++ "/work")
    = "lowerdir=/" ++ dir ++ ",upperdir=" ++ basepath ++ "/" ++ dir ++ "/upper,workdir="
      ++ basepath ++ "/" ++ dir ++ "/work" := by
  apply String.ext
  simp [String.data_append]

theorem LOG_BASE_snd (silent : Bool) (t l : String) : (LOG_BASE silent t l).2 = .ok () := by
  cases silent <;> rfl

theorem LOG_INFO_snd (silent : Bool) (l : String) : (LOG_INFO silent l).2 = .ok () :=
  LOG_BASE_snd silent "INFO" l

theorem LOG_BASE_fst (silent : Bool) (t l : String) :
    (LOG_BASE silent t l).1 = if silent then [] else [.log t l] := by
  cases silent <;> rfl

theorem overlay_loop_cons_skip (silent : Bool) (basepath : String) (empty_home : Bool)
    (e : RootEntry) (rest : List RootEntry) (h : selected empty_home e.ent = false) :
    overlay_loop silent basepath empty_home (e :: rest)
      = overlay_loop silent basepath empty_home rest := by
  unfold selected at h
  rw [overlay_loop]
  by_cases h1 : (e.ent.d_name == "." || e.ent.d_name == "..") = true
  · simp [h1]
  · by_cases h2 : (e.ent.d_type != DT_DIR) = true
    · simp [h1, h2]
    · by_cases h3 : is_skip_dir empty_home e.ent.d_name = true
      · simp [h1, h2, h3]
      · simp [h1, h2, h3] at h

theorem overlay_loop_cons_sel (silent : Bool) (basepath : String) (empty_home : Bool)
    (e : RootEntry) (rest : List RootEntry) (h : selected empty_home e.ent = true) :
    overlay_loop silent basepath empty_home (e :: rest)
      = if e.mount_ret = -1 then
          (overlay_events silent basepath e, .error (.errno_except "Error in mount"))
        else
          (overlay_events silent basepath e
            ++ (overlay_loop silent basepath empty_home rest).1,
           (overlay_loop silent basepath empty_home rest).2) := by
  unfold selected at h
  simp only [Bool.and_eq_true, Bool.not_eq_true', bne_eq_false_iff_eq] at h
  obtain ⟨⟨h1, h2⟩, h3⟩ := h
  rw [overlay_loop]
  have h2' : (e.ent.d_type != DT_DIR) = false := by simp [h2]
  rw [if_neg (by simp [h1]), if_neg (by simp [h2']), if_neg (by simp [h3])]
  simp only [bind_eq]
  rw [andThen_of_ok _ _ () (LOG_INFO_snd _ _)]
  by_cases hm : e.mount_ret = -1
  · rw [if_pos hm, andThen_of_error _ _ (.errno_except "Error in mount")
      (by rw [mount_func_snd, if_pos hm])]
    rfl
  · rw [if_neg hm, andThen_of_ok _ _ () (by rw [mount_func_snd, if_neg hm])]
    simp [overlay_events, List.append_assoc]

theorem overlay_loop_all_ok (silent : Bool) (basepath : String) (empty_home : Bool)
    (l : List RootEntry)
    (h : ∀ e ∈ l, selected empty_home e.ent = true → e.mount_ret ≠ -1) :
    overlay_loop silent basepath empty_home l
      = ((l.filter fun e => selected empty_home e.ent).flatMap
          (overlay_events silent basepath), .ok ()) := by
  induction l with
  | nil => rfl
  | cons e rest ih =>
    have ih' := ih (fun x hx => h x (List.mem_cons_of_mem _ hx))
    by_cases hs : selected empty_home e.ent = true
    · rw [overlay_loop_cons_sel _ _ _ _ _ hs, if_neg (h e (List.mem_cons_self _ _) hs), ih']
      simp [List.filter_cons, hs]
    · simp only [Bool.not_eq_true] at hs
      rw [overlay_loop_cons_skip _ _ _ _ _ hs, ih']
      simp [List.filter_cons, hs]

theorem overlay_loop_first_failure (silent : Bool) (basepath : String) (empty_home : Bool)
    (pre : List RootEntry) (e : RootEntry) (post : List RootEntry)
    (hpre : ∀ p ∈ pre, selected empty_home p.ent = true → p.mount_ret ≠ -1)
    (hs : selected empty_home e.ent = true) (hf : e.mount_ret = -1) :
    overlay_loop silent basepath empty_home (pre ++ e :: post)
      = ((pre.filter fun p => selected empty_home p.ent).flatMap
          (overlay_events silent basepath) ++ overlay_events silent basepath e,
         .error (.errno_except "Error in mount")) := by
  induction pre with
  | nil =>
    rw [List.nil_append, overlay_loop_cons_sel _ _ _ _ _ hs, if_pos hf]
    simp
  | cons p rest ih =>
    have ih' := ih (fun x hx => hpre x (List.mem_cons_of_mem _ hx))
    rw [List.cons_append]
    by_cases hp : selected empty_home p.ent = true
    · rw [overlay_loop_cons_sel _ _ _ _ _ hp, if_neg (hpre p (List.mem_cons_self _ _) hp), ih']
      simp [List.filter_cons, hp]
    · simp only [Bool.not_eq_true] at hp
      rw [overlay_loop_cons_skip _ _ _ _ _ hp, ih']
      simp [List.filter_cons, hp]

/-- Either every selected entry mounts, or there is a first one that does not. -/
theorem first_failure_cases (empty_home : Bool) (l : List RootEntry) :
    (∀ e ∈ l, selected empty_home e.ent = true → e.mount_ret ≠ -1) ∨
    ∃ pre e post, l = pre ++ e :: post ∧
      (∀ p ∈ pre, selected empty_home p.ent = true → p.mount_ret ≠ -1) ∧
      selected empty_home e.ent = true ∧ e.mount_ret = -1 := by
  induction l with
  | nil => left; simp
  | cons x rest ih =>
    by_cases hx : selected empty_home x.ent = true ∧ x.mount_ret = -1
    · right
      exact ⟨[], x, rest, rfl, by simp, hx.1, hx.2⟩
    · rcases ih with hall | ⟨pre, e, post, hl, hpre, hs, hf⟩
      · left
        intro y hy hsel
        rcases List.mem_cons.mp hy with rfl | hy
        · exact fun hc => hx ⟨hsel, hc⟩
        · exact hall y hy hsel
      · right
        refine ⟨x :: pre, e, post, by rw [hl]; rfl, ?_, hs, hf⟩
        intro y hy hsel
        rcases List.mem_cons.mp hy with rfl | hy
        · exact fun hc => hx ⟨hsel, hc⟩
        · exact hpre y hy hsel

theorem overlay_targets_append (a b : List Event) :
    overlay_targets (a ++ b) = overlay_targets a ++ overlay_targets b := by
  simp [overlay_targets, List.filterMap_append]

theorem overlay_targets_events (silent : Bool) (basepath : String) (e : RootEntry) :
    overlay_targets (overlay_events silent basepath e) = ["/" ++ e.ent.d_name] := by
  rw [overlay_events, overlay_targets_append, mount_func_fst]
  cases silent <;> simp [overlay_targets, LOG_INFO, LOG_BASE, emit, pure_eq]

theorem overlay_targets_flatMap (silent : Bool) (basepath : String) (l : List RootEntry) :
    overlay_targets (l.flatMap (overlay_events silent basepath))
      = l.map fun e => "/" ++ e.ent.d_name := by
  induction l with
  | nil => rfl
  | cons e rest ih =>
    rw [List.flatMap_cons, overlay_targets_append, ih, overlay_targets_events]
    rfl

theorem empty_home_block_targets (env : ChildEnv) (silent : Bool) :
    overlay_targets (empty_home_block env silent).1 = [] := by
  unfold empty_home_block
  simp only [bind_eq, andThen_emit]
  by_cases h1 : env.home_mount_ret = -1
  · simp [h1, raise, overlay_targets]
  · simp only [h1, if_false]
    by_cases h2 : env.uid = 0
    · cases silent <;> simp [h2, overlay_targets, LOG_INFO, LOG_BASE, emit, pure_eq]
    · cases hh : env.home with
      | none => simp [h2, raise, overlay_targets]
      | some cur_home =>
        by_cases h3 : env.mkdir_home_ret = 0
        · cases silent <;>
            simp [h2, h3, overlay_targets, LOG_INFO, LOG_BASE, emit, pure_eq]
        · simp [h2, h3, raise, overlay_targets]

theorem empty_proc_block_targets (env : ChildEnv) :
    overlay_targets (empty_proc_block env).1 = [] := by
  unfold empty_proc_block
  simp only [bind_eq, andThen_emit]
  split <;> simp [raise, overlay_targets, pure_eq]

theorem setup_overlays_targets (env : ChildEnv) (silent : Bool) (basepath : String)
    (empty_home empty_proc : Bool) :
    overlay_targets (setup_overlays env silent basepath empty_home empty_proc).1
      = overlay_targets (overlay_loop silent basepath empty_home env.root).1 := by
  unfold setup_overlays
  simp only [bind_eq, andThen_emit]
  generalize overlay_loop silent basepath empty_home env.root = r
  obtain ⟨evs, res⟩ := r
  cases res with
  | error e => simp [overlay_targets]
  | ok u =>
    simp only [andThen_ok]
    have hA : ∀ x : Run Unit, overlay_targets x.1 = [] →
        ∀ y : Run Unit, overlay_targets y.1 = [] →
        overlay_targets (Run.andThen x fun _ => y).1 = [] := by
      intro x hx y hy
      obtain ⟨xe, xr⟩ := x
      cases xr with
      | error e => simpa using hx
      | ok a =>
        simp only [andThen_ok, overlay_targets_append]
        simp only at hx
        rw [hx, hy]
        rfl
    have hh : overlay_targets
        (if empty_home = true then empty_home_block env silent else pure ()).1 = [] := by
      split
      · exact empty_home_block_targets env silent
      · rfl
    have hp : overlay_targets
        (if empty_proc = true then empty_proc_block env else pure ()).1 = [] := by
      split
      · exact empty_proc_block_targets env
      · rfl
    have := hA _ hh _ hp
    have h0 : overlay_targets [Event.mkdir basepath 0o755 env.mkdir_base_ret] = [] := rfl
    rw [show (Event.mkdir basepath 0o755 env.mkdir_base_ret :: (evs ++ _))
      = [Event.mkdir basepath 0o755 env.mkdir_base_ret] ++ (evs ++ _) from rfl]
    rw [overlay_targets_append, overlay_targets_append, h0, this]
    simp

theorem selected_iff (empty_home : Bool) (d : dirent) :
    selected empty_home d = true ↔
      (d.d_type = DT_DIR ∧ d.d_name ≠ "." ∧ d.d_name ≠ ".." ∧
        d.d_name ∉ ["proc", "dev", "run", "mnt", "var", "sys"] ∧
        ¬ (empty_home = true ∧ d.d_name = "home")) := by
  unfold selected is_skip_dir SKIP_DIRS PROC_DIR HOME_DIR
  cases empty_home <;> simp <;> tauto

/-- Claim C2, amended.  An entry is selected exactly when it is a directory, is not `.` or
`..`, is not in the skip set and is not `home` under `empty_home`.  The overlay mounts
`setup_overlays` issues are always an initial segment of the selected entries in
enumeration order, one call each; they are all of them when no overlay mount fails; and
when one fails they stop with that entry. -/
theorem C2_overlay_selection (env : ChildEnv) (silent : Bool) (basepath : String)
    (empty_home empty_proc : Bool) :
    (∀ d : dirent, selected empty_home d = true ↔
      (d.d_type = DT_DIR ∧ d.d_name ≠ "." ∧ d.d_name ≠ ".." ∧
        d.d_name ∉ ["proc", "dev", "run", "mnt", "var", "sys"] ∧
        ¬ (empty_home = true ∧ d.d_name = "home"))) ∧
    overlay_targets (setup_overlays env silent basepath empty_home empty_proc).1
      <+: ((env.root.filter fun e => selected empty_home e.ent).map
            fun e => "/" ++ e.ent.d_name) ∧
    ((∀ e ∈ env.root, selected empty_home e.ent = true → e.mount_ret ≠ -1) →
      overlay_targets (setup_overlays env silent basepath empty_home empty_proc).1
        = (env.root.filter fun e => selected empty_home e.ent).map
            fun e => "/" ++ e.ent.d_name) ∧
    (∀ pre e post, env.root = pre ++ e :: post →
      (∀ p ∈ pre, selected empty_home p.ent = true → p.mount_ret ≠ -1) →
      selected empty_home e.ent = true → e.mount_ret = -1 →
      overlay_targets (setup_overlays env silent basepath empty_home empty_proc).1
        = ((pre.filter fun p => selected empty_home p.ent).map
            fun p => "/" ++ p.ent.d_name) ++ ["/" ++ e.ent.d_name]) := by
  have hok : (∀ e ∈ env.root, selected empty_home e.ent = true → e.mount_ret ≠ -1) →
      overlay_targets (setup_overlays env silent basepath empty_home empty_proc).1
        = (env.root.filter fun e => selected empty_home e.ent).map
            fun e => "/" ++ e.ent.d_name := by
    intro h
    rw [setup_overlays_targets, overlay_loop_all_ok _ _ _ _ h, overlay_targets_flatMap]
  have hfail : ∀ pre e post, env.root = pre ++ e :: post →
      (∀ p ∈ pre, selected empty_home p.ent = true → p.mount_ret ≠ -1) →
      selected empty_home e.ent = true → e.mount_ret = -1 →
      overlay_targets (setup_overlays env silent basepath empty_home empty_proc).1
        = ((pre.filter fun p => selected empty_home p.ent).map
            fun p => "/" ++ p.ent.d_name) ++ ["/" ++ e.ent.d_name] := by
    intro pre e post hl hpre hs hf
    rw [setup_overlays_targets, hl, overlay_loop_first_failure _ _ _ _ _ _ hpre hs hf,
      overlay_targets_append, overlay_targets_flatMap, overlay_targets_events]
  refine ⟨selected_iff empty_home, ?_, hok, hfail⟩
  rcases first_failure_cases empty_home env.root with hall | ⟨pre, e, post, hl, hpre, hs, hf⟩
  · rw [hok hall]
  · rw [hfail pre e post hl hpre hs hf, hl]
    simp only [List.filter_append, List.filter_cons, hs, if_true, List.map_append,
      List.map_cons]
    exact ⟨(post.filter fun p => selected empty_home p.ent).map
      fun p => "/" ++ p.ent.d_name, by simp⟩

theorem w_func_eq (fname : String) (id : Int) (stropt : Option String)
    (open_ok write_ok : Bool) :
    w_func fname id stropt open_ok write_ok =
      if open_ok = false then
        ([.ofstream_open fname false false],
          .error (.errno_except "Error in std::ofstream::<constructor>"))
      else
        ([.ofstream_open fname false true,
          .ofstream_write fname
            (match stropt with
             | none => (toString id ++ " " ++ toString id ++ " 1").toList
             | some s => s.toList) write_ok],
         .ok ()) := by
  unfold w_func ofstream_buffered_write
  cases open_ok <;> cases stropt <;> rfl

/-- The calls of `set_ugid` are an initial segment of the six mapper calls; it returns
normally exactly when the three streams open, whatever happens to the bytes. -/
theorem set_ugid_calls (open_ok write_ok : Nat → Bool) (child_pid : Int) (uid gid : Nat) :
    ∃ n, (set_ugid open_ok write_ok child_pid uid gid).1
      = (mapping_calls open_ok write_ok child_pid uid gid).take n ∧
      (∀ i, i < 3 → open_ok i = false → n ≤ 2 * i + 1) ∧
      ((set_ugid open_ok write_ok child_pid uid gid).2 = .ok () ↔
        ∀ i, i < 3 → open_ok i = true) ∧
      ((∀ i, i < 3 → open_ok i = true) → n = 6) := by
  have key : ∀ P : Nat → Prop, (∀ i, i < 3 → P i) ↔ (P 0 ∧ P 1 ∧ P 2) := by
    intro P
    constructor
    · intro h
      exact ⟨h 0 (by omega), h 1 (by omega), h 2 (by omega)⟩
    · rintro ⟨h0, h1, h2⟩ i hi
      interval_cases i <;> assumption
  simp only [key]
  unfold set_ugid mapping_calls
  simp only [bind_eq, w_func_eq]
  have hu : toString (uid : Int) = toString uid := rfl
  have hg : toString (gid : Int) = toString gid := rfl
  rw [hu, hg]
  generalize open_ok 0 = o0
  generalize open_ok 1 = o1
  generalize open_ok 2 = o2
  cases o0
  · exact ⟨1, by simp⟩
  cases o1
  · exact ⟨3, by simp⟩
  cases o2
  · exact ⟨5, by simp⟩
  · exact ⟨6, by simp⟩

/-- When the three streams open, `set_ugid` issues all six mapper calls and returns
normally, whether or not the files take the bytes. -/
theorem set_ugid_of_open (open_ok write_ok : Nat → Bool) (child_pid : Int) (uid gid : Nat)
    (h : ∀ i, i < 3 → open_ok i = true) :
    set_ugid open_ok write_ok child_pid uid gid =
      (mapping_calls ok3 write_ok child_pid uid gid, .ok ()) := by
  obtain ⟨n, htr, -, hok, h6⟩ := set_ugid_calls open_ok write_ok child_pid uid gid
  apply Prod.ext
  · rw [htr, h6 h]
    simp [mapping_calls, ok3, h 0 (by omega), h 1 (by omega), h 2 (by omega)]
  · exact hok.mpr h

theorem child_func_of_ok (env : ChildEnv) (silent : Bool) (args : child_args) (x : Exit)
    (h : (child_body env silent args).2 = .ok x) :
    child_func env silent args = ((child_body env silent args).1, x) := by
  unfold child_func
  generalize child_body env silent args = r at h
  obtain ⟨evs, res⟩ := r
  simp only at h
  subst h
  rfl

theorem child_func_of_error (env : ChildEnv) (silent : Bool) (args : child_args) (e : Exn)
    (h : (child_body env silent args).2 = .error e) :
    child_func env silent args =
      ((child_body env silent args).1 ++ (LOG_ERR silent ("Exception: " ++ what env.err e)).1,
       Exit.returned (-1)) := by
  unfold child_func
  generalize child_body env silent args = r at h
  obtain ⟨evs, res⟩ := r
  simp only at h
  subst h
  rfl

theorem child_body_initial_func (env : ChildEnv) (silent : Bool) (args : child_args) :
    (child_body env silent args).1 <+: (child_func env silent args).1 := by
  cases h : (child_body env silent args).2 with
  | ok x => rw [child_func_of_ok _ _ _ _ h]
  | error e =>
    rw [child_func_of_error _ _ _ _ h]
    exact ⟨_, rfl⟩

theorem child_setup_eq (env : ChildEnv) (silent : Bool) (args : child_args) :
    ∃ r : Run Unit, child_setup env silent args =
      (.close args.pipe_fd.2 :: .read args.pipe_fd.1 env.read_ret :: r.1, r.2) ∧
      (env.read_ret ≠ 0 → r = raise (.runtime_error "Sync pipe not properly closed")) := by
  unfold child_setup
  simp only [bind_eq, andThen_emit]
  refine ⟨_, rfl, ?_⟩
  intro h
  rw [if_pos h]

theorem child_setup_barrier_violation (env : ChildEnv) (silent : Bool) (args : child_args)
    (h : env.read_ret ≠ 0) :
    child_setup env silent args =
      ([.close args.pipe_fd.2, .read args.pipe_fd.1 env.read_ret],
       .error (.runtime_error "Sync pipe not properly closed")) := by
  obtain ⟨r, hr, hv⟩ := child_setup_eq env silent args
  rw [hr, hv h]
  rfl

/-- Claim C5.  The first two calls of `child_func` are the `close` of its write end and the
`read` on the read end.  When that read returns anything but 0, `child_func` issues no
further call except the error line, returns -1, and performs no `mkdtemp`, `mkdir`,
`mount`, stream call, `fork` or `execvp`. -/
theorem C5_barrier_first (env : ChildEnv) (silent : Bool) (args : child_args) :
    (∃ rest, (child_func env silent args).1 =
      .close args.pipe_fd.2 :: .read args.pipe_fd.1 env.read_ret :: rest) ∧
    (env.read_ret ≠ 0 →
      child_func env silent args =
        ([.close args.pipe_fd.2, .read args.pipe_fd.1 env.read_ret]
          ++ (LOG_ERR silent "Exception: Sync pipe not properly closed").1,
         Exit.returned (-1)) ∧
      ∀ e ∈ (child_func env silent args).1,
        is_fs_call e = false ∧ is_fork_or_exec e = false ∧ is_mapping_call e = false) := by
  constructor
  · obtain ⟨r, hr, -⟩ := child_setup_eq env silent args
    have h1 : (child_setup env silent args).1 <+: (child_body env silent args).1 :=
      andThen_fst_initial _ _
    have h2 := h1.trans (child_body_initial_func env silent args)
    rw [hr] at h2
    obtain ⟨t, ht⟩ := h2
    exact ⟨r.1 ++ t, by rw [← ht]; simp⟩
  · intro h
    have hb : child_body env silent args =
        ([.close args.pipe_fd.2, .read args.pipe_fd.1 env.read_ret],
         .error (.runtime_error "Sync pipe not properly closed")) := by
      unfold child_body
      rw [bind_eq, child_setup_barrier_violation env silent args h]
      rfl
    have hf : child_func env silent args =
        ([.close args.pipe_fd.2, .read args.pipe_fd.1 env.read_ret]
          ++ (LOG_ERR silent "Exception: Sync pipe not properly closed").1,
         Exit.returned (-1)) := by
      rw [child_func_of_error env silent args _ (by rw [hb]), hb]
      rfl
    refine ⟨hf, ?_⟩
    rw [hf]
    intro e he
    cases silent <;>
      simp [LOG_ERR, LOG_BASE, emit, pure_eq] at he <;>
      rcases he with rfl | rfl | rfl <;>
      simp [is_fs_call, is_fork_or_exec, is_mapping_call]
/-! ### Properties of all calls of a computation -/

theorem all_andThen {α β : Type} {P : Event → Prop} (x : Run α) (f : α → Run β)
    (hx : ∀ e ∈ x.1, P e) (hf : ∀ a, ∀ e ∈ (f a).1, P e) :
    ∀ e ∈ (Run.andThen x f).1, P e := by
  obtain ⟨evs, r⟩ := x
  cases r with
  | error e => simpa using hx
  | ok a =>
    intro e he
    simp only [andThen_ok, List.mem_append] at he
    rcases he with he | he
    · exact hx e he
    · exact hf a e he

theorem all_emit {P : Event → Prop} (ev : Event) (h : P ev) : ∀ e ∈ (emit ev).1, P e := by
  intro e he
  simp only [emit, List.mem_singleton] at he
  rw [he]
  exact h

theorem all_pure {α : Type} {P : Event → Prop} (a : α) :
    ∀ e ∈ (pure a : Run α).1, P e := by
  intro e he
  simp [pure_eq] at he

theorem all_raise {α : Type} {P : Event → Prop} (x : Exn) :
    ∀ e ∈ (raise x : Run α).1, P e := by
  intro e he
  simp [raise] at he

theorem all_LOG_BASE {P : Event → Prop} (silent : Bool) (t l : String)
    (h : ∀ a b, P (.log a b)) : ∀ e ∈ (LOG_BASE silent t l).1, P e := by
  cases silent
  · exact all_emit _ (h _ _)
  · exact all_pure _

theorem all_mount_func {P : Event → Prop} (hP : SetupSafe P) (basepath dir : String)
    (r1 r2 r3 ret : Int) : ∀ e ∈ (mount_func basepath dir r1 r2 r3 ret).1, P e := by
  rw [mount_func_fst]
  intro e he
  simp only [List.mem_cons, List.mem_singleton, List.not_mem_nil, or_false] at he
  rcases he with rfl | rfl | rfl | rfl
  · exact hP.mkdir _ _ _
  · exact hP.mkdir _ _ _
  · exact hP.mkdir _ _ _
  · exact hP.mount _ _ _ _ _ _

theorem all_overlay_loop {P : Event → Prop} (hP : SetupSafe P) (silent : Bool)
    (basepath : String) (empty_home : Bool) (l : List RootEntry) :
    ∀ e ∈ (overlay_loop silent basepath empty_home l).1, P e := by
  induction l with
  | nil => exact all_pure _
  | cons x rest ih =>
    by_cases hs : selected empty_home x.ent = true
    · rw [overlay_loop_cons_sel _ _ _ _ _ hs]
      have hev : ∀ e ∈ overlay_events silent basepath x, P e := by
        intro e he
        simp only [overlay_events, List.mem_append] at he
        rcases he with he | he
        · exact all_LOG_BASE _ _ _ hP.log e he
        · exact all_mount_func hP _ _ _ _ _ _ e he
      split
      · exact hev
      · intro e he
        simp only [List.mem_append] at he
        rcases he with he | he
        · exact hev e he
        · exact ih e he
    · simp only [Bool.not_eq_true] at hs
      rw [overlay_loop_cons_skip _ _ _ _ _ hs]
      exact ih

theorem all_empty_home_block {P : Event → Prop} (hP : SetupSafe P) (env : ChildEnv)
    (silent : Bool) : ∀ e ∈ (empty_home_block env silent).1, P e := by
  unfold empty_home_block
  simp only [bind_eq]
  apply all_andThen _ _ (all_emit _ (hP.mount _ _ _ _ _ _))
  intro _
  split
  · exact all_raise _
  · apply all_andThen
    · split
      · split
        · exact all_raise _
        · apply all_andThen _ _ (all_emit _ (hP.mkdir _ _ _))
          intro _
          split
          · exact all_raise _
          · exact all_pure _
      · exact all_pure _
    · intro _
      exact all_LOG_BASE _ _ _ hP.log

theorem all_empty_proc_block {P : Event → Prop} (hP : SetupSafe P) (env : ChildEnv) :
    ∀ e ∈ (empty_proc_block env).1, P e := by
  unfold empty_proc_block
  simp only [bind_eq]
  apply all_andThen _ _ (all_emit _ (hP.mount _ _ _ _ _ _))
  intro _
  split
  · exact all_raise _
  · exact all_pure _

theorem all_setup_overlays {P : Event → Prop} (hP : SetupSafe P) (env : ChildEnv)
    (silent : Bool) (basepath : String) (empty_home empty_proc : Bool) :
    ∀ e ∈ (setup_overlays env silent basepath empty_home empty_proc).1, P e := by
  unfold setup_overlays
  simp only [bind_eq]
  apply all_andThen _ _ (all_emit _ (hP.mkdir _ _ _))
  intro _
  apply all_andThen _ _ (all_overlay_loop hP _ _ _ _)
  intro _
  apply all_andThen
  · split
    · exact all_empty_home_block hP _ _
    · exact all_pure _
  · intro _
    split
    · exact all_empty_proc_block hP _
    · exact all_pure _

theorem all_copy_loop {P : Event → Prop} (hP : SetupSafe P) (path : String) (open_ok : Bool)
    (write_ok : Nat → Bool) (fuel k : Nat) (g : Bytes) :
    ∀ e ∈ (copy_loop path open_ok write_ok fuel k g).1, P e := by
  induction fuel generalizing k g with
  | zero => exact all_pure _
  | succ n ih =>
    rw [copy_loop]
    simp only [bind_eq]
    apply all_andThen
    · split
      · exact all_emit _ (hP.swrite _ _ _)
      · exact all_pure _
    · intro _
      split
      · exact all_raise _
      · split
        · exact all_pure _
        · exact ih _ _

theorem all_setup_pulseaudio {P : Event → Prop} (hP : SetupSafe P) (env : ChildEnv)
    (silent : Bool) : ∀ e ∈ (setup_pulseaudio env silent).1, P e := by
  unfold setup_pulseaudio
  split
  · exact all_LOG_BASE _ _ _ hP.log
  · split
    · exact all_raise _
    · simp only [bind_eq]
      apply all_andThen _ _ (all_emit _ (hP.mkdir _ _ _))
      intro _
      apply all_andThen _ _ (all_emit _ (hP.mkdir _ _ _))
      intro _
      apply all_andThen _ _ (all_emit _ (hP.sopen _ _ _))
      intro _
      apply all_andThen
      · split
        · exact all_copy_loop hP _ _ _ _ _ _
        · exact all_pure _
      · intro k
        apply all_andThen
        · split
          · exact all_emit _ (hP.swrite _ _ _)
          · exact all_pure _
        · intro _
          exact all_LOG_BASE _ _ _ hP.log

theorem all_child_setup {P : Event → Prop} (hP : SetupSafe P) (env : ChildEnv)
    (silent : Bool) (args : child_args) : ∀ e ∈ (child_setup env silent args).1, P e := by
  unfold child_setup
  simp only [bind_eq]
  apply all_andThen _ _ (all_emit _ (hP.close _))
  intro _
  apply all_andThen _ _ (all_emit _ (hP.read _ _))
  intro _
  split
  · exact all_raise _
  · apply all_andThen
    · unfold tmp_dir
      simp only [bind_eq]
      apply all_andThen _ _ (all_emit _ (hP.mkdtemp _ _))
      intro _
      split
      · exact all_raise _
      · exact all_pure _
    · intro t_dir
      apply all_andThen
      · split
        · exact all_setup_overlays hP _ _ _ _ _
        · apply all_andThen _ _ (all_emit _ (hP.mount _ _ _ _ _ _))
          intro _
          split
          · exact all_raise _
          · exact all_setup_overlays hP _ _ _ _ _
      · intro _
        split
        · exact all_setup_pulseaudio hP _ _
        · exact all_pure _

theorem safe_no_fork_exec : SetupSafe (fun e => is_fork_or_exec e = false) :=
  ⟨fun _ _ => rfl, fun _ => rfl, fun _ _ => rfl, fun _ _ => rfl, fun _ _ _ => rfl,
   fun _ _ _ _ _ _ => rfl, fun _ _ _ => rfl, fun _ _ _ => rfl⟩

theorem overlay_loop_ok (silent : Bool) (basepath : String) (empty_home : Bool)
    (l : List RootEntry) (h : (overlay_loop silent basepath empty_home l).2 = .ok ()) :
    ∀ e ∈ l, selected empty_home e.ent = true → e.mount_ret ≠ -1 := by
  rcases first_failure_cases empty_home l with hall | ⟨pre, e, post, hl, hpre, hs, hf⟩
  · exact hall
  · rw [hl, overlay_loop_first_failure _ _ _ _ _ _ hpre hs hf] at h
    simp at h

theorem empty_home_block_head (env : ChildEnv) (silent : Bool) :
    ∃ rest, (empty_home_block env silent).1 =
      .mount "tmpfs" (if env.uid ≠ 0 then "/home" else "/root") "tmpfs"
        (MS_NOSUID ||| MS_NODEV ||| MS_NOEXEC ||| MS_STRICTATIME ||| MS_REC)
        (some (if env.uid ≠ 0 then "mode=755" else "mode=700")) env.home_mount_ret :: rest := by
  unfold empty_home_block
  simp only [bind_eq, andThen_emit]
  exact ⟨_, rfl⟩

theorem empty_home_block_ok (env : ChildEnv) (silent : Bool)
    (h : (empty_home_block env silent).2 = .ok ()) :
    env.home_mount_ret ≠ -1 ∧
      (env.uid ≠ 0 → ∃ cur_home, env.home = some cur_home ∧ env.mkdir_home_ret = 0) := by
  unfold empty_home_block at h
  simp only [bind_eq, andThen_emit] at h
  by_cases h1 : env.home_mount_ret = -1
  · simp [h1, raise] at h
  · refine ⟨h1, ?_⟩
    intro hu
    simp only [h1, if_false, hu, not_false_eq_true, if_true] at h
    obtain ⟨a, ha, -⟩ := andThen_snd_ok _ _ _ h
    cases hh : env.home with
    | none => simp [hh, hu, raise] at ha
    | some cur_home =>
      refine ⟨cur_home, rfl, ?_⟩
      by_contra h3
      simp [hh, hu, h3, raise] at ha

theorem empty_proc_block_eq (env : ChildEnv) :
    empty_proc_block env =
      ([.mount "proc" "/proc" "proc" (MS_NOSUID ||| MS_NOEXEC ||| MS_NODEV ||| MS_REC) none
          env.proc_mount_ret],
       if env.proc_mount_ret = -1 then
         .error (.errno_except "Can't create empty /proc directory")
       else .ok ()) := by
  unfold empty_proc_block
  simp only [bind_eq, andThen_emit]
  split <;> rfl

theorem setup_overlays_ok (env : ChildEnv) (silent : Bool) (basepath : String)
    (empty_home empty_proc : Bool)
    (h : (setup_overlays env silent basepath empty_home empty_proc).2 = .ok ()) :
    (overlay_loop silent basepath empty_home env.root).2 = .ok () ∧
    (empty_home = true → (empty_home_block env silent).2 = .ok ()) ∧
    (empty_proc = true → (empty_proc_block env).2 = .ok ()) ∧
    (setup_overlays env silent basepath empty_home empty_proc).1 =
      .mkdir basepath 0o755 env.mkdir_base_ret ::
        ((overlay_loop silent basepath empty_home env.root).1
        ++ (if empty_home = true then empty_home_block env silent else pure ()).1
        ++ (if empty_proc = true then empty_proc_block env else pure ()).1) := by
  unfold setup_overlays at h ⊢
  simp only [bind_eq, andThen_emit] at h ⊢
  obtain ⟨a, ha, h2⟩ := andThen_snd_ok _ _ _ h
  obtain ⟨b, hb, h3⟩ := andThen_snd_ok _ _ _ h2
  refine ⟨ha, ?_, ?_, ?_⟩
  · intro he
    rw [if_pos he] at hb
    exact hb
  · intro hp
    rw [if_pos hp] at h3
    exact h3
  · rw [andThen_of_ok _ _ _ ha, andThen_of_ok _ _ _ hb]
    simp [List.append_assoc]

theorem tmp_dir_eq (env : ChildEnv) :
    tmp_dir env =
      ([.mkdtemp "/dev/shm/emajail_XXXXXX" env.mkdtemp_ret],
       match env.mkdtemp_ret with
       | none => .error (.errno_except "Error in mkdtemp")
       | some p => .ok p) := by
  unfold tmp_dir
  simp only [bind_eq, andThen_emit]
  cases env.mkdtemp_ret <;> rfl

/-- The calls before `setup_overlays` once the barrier is passed. -/
theorem child_setup_ok (env : ChildEnv) (silent : Bool) (args : child_args)
    (h : (child_setup env silent args).2 = .ok ()) :
    env.read_ret = 0 ∧ ∃ t, env.mkdtemp_ret = some t ∧
      (args.overlayfs = none → env.scratch_mount_ret ≠ -1) ∧
      (setup_overlays env silent (args.overlayfs.getD t) args.empty_home
        args.empty_proc).2 = .ok () ∧
      ((args.strict_mode || args.empty_proc) = true →
        (setup_pulseaudio env silent).2 = .ok ()) ∧
      ∃ pre post, (child_setup env silent args).1 =
        pre ++ (setup_overlays env silent (args.overlayfs.getD t) args.empty_home
          args.empty_proc).1 ++ post := by
  unfold child_setup at h ⊢
  simp only [bind_eq, andThen_emit] at h ⊢
  by_cases hr : env.read_ret = 0
  · refine ⟨hr, ?_⟩
    simp only [hr, ne_eq, not_true_eq_false, if_false] at h ⊢
    obtain ⟨t, ht, h2⟩ := andThen_snd_ok _ _ _ h
    rw [tmp_dir_eq] at ht
    cases hm : env.mkdtemp_ret with
    | none => simp [hm] at ht
    | some t' =>
      simp only [hm, Except.ok.injEq] at ht
      subst ht
      refine ⟨t', rfl, ?_⟩
      obtain ⟨u, hu, h3⟩ := andThen_snd_ok _ _ _ h2
      rw [andThen_of_ok _ _ t' (by rw [tmp_dir_eq, hm])]
      cases ho : args.overlayfs with
      | some o =>
        simp only [ho] at hu
        refine ⟨by simp, by simpa using hu, ?_, ?_⟩
        · intro hp
          rw [if_pos hp] at h3
          exact h3
        · simp only [Option.getD_some]
          rw [andThen_of_ok _ _ _ hu]
          exact ⟨.close args.pipe_fd.2 :: .read args.pipe_fd.1 0 :: (tmp_dir env).1,
            (if (args.strict_mode || args.empty_proc) = true then setup_pulseaudio env silent
              else pure ()).1, by simp⟩
      | none =>
        simp only [ho, andThen_emit] at hu
        by_cases hsm : env.scratch_mount_ret = -1
        · simp [hsm, raise] at hu
        · simp only [hsm, if_false] at hu
          refine ⟨fun _ => hsm, by simpa using hu, ?_, ?_⟩
          · intro hp
            rw [if_pos hp] at h3
            exact h3
          · simp only [Option.getD_none, andThen_emit, hsm, if_false]
            rw [hu]
            simp only [andThen_ok]
            exact ⟨.close args.pipe_fd.2 :: .read args.pipe_fd.1 0 :: ((tmp_dir env).1 ++
              [.mount "tmpfs" t' "tmpfs"
                (MS_NOSUID ||| MS_NODEV ||| MS_NOEXEC ||| MS_STRICTATIME ||| MS_REC) (some "")
                env.scratch_mount_ret]),
              (if (args.strict_mode || args.empty_proc) = true then
                setup_pulseaudio env silent else pure ()).1, by simp⟩
  · simp [hr, raise] at h

theorem child_exec_eq (env : ChildEnv) (silent : Bool) (args : child_args) :
    child_exec env silent args =
      if env.fork_ret = -1 then ([.fork env.fork_ret], .error (.errno_except "Error in fork"))
      else if env.fork_ret = 0 then
        ([.fork env.fork_ret, .execvp (args.argv.headD "") args.argv],
         .ok (if env.exec_ok = true then Exit.replaced else Exit.returned (-1)))
      else if env.fork_ret ≠ env.wait_ret then
        ([.fork env.fork_ret, .wait env.wait_ret (some env.wait_status)],
         .error (.errno_except "Error in wait"))
      else
        ([.fork env.fork_ret, .wait env.wait_ret (some env.wait_status)]
          ++ (LOG_INFO silent ("Child process (" ++ args.argv.headD "" ++ ") exited with code "
            ++ toString env.wait_status)).1,
         .ok (Exit.returned 0)) := by
  unfold child_exec
  simp only [bind_eq, andThen_emit]
  by_cases h1 : env.fork_ret = -1
  · simp [h1, raise]
  · by_cases h2 : env.fork_ret = 0
    · cases hx : env.exec_ok <;> simp [h2, pure_eq]
    · by_cases h3 : env.fork_ret = env.wait_ret
      · rw [if_neg h1, if_neg h2, if_neg h1, if_neg h2, if_neg (not_not.mpr h3),
          if_neg (not_not.mpr h3), andThen_of_ok _ _ () (LOG_INFO_snd _ _)]
        simp [pure_eq]
      · rw [if_neg h1, if_neg h2, if_neg h1, if_neg h2, if_pos h3, if_pos h3]
        rfl

theorem child_body_of_setup_ok (env : ChildEnv) (silent : Bool) (args : child_args)
    (h : (child_setup env silent args).2 = .ok ()) :
    child_body env silent args =
      ((child_setup env silent args).1 ++ (child_exec env silent args).1,
       (child_exec env silent args).2) := by
  unfold child_body
  rw [bind_eq, andThen_of_ok _ _ () h]

theorem child_body_of_setup_error (env : ChildEnv) (silent : Bool) (args : child_args)
    (x : Exn) (h : (child_setup env silent args).2 = .error x) :
    child_body env silent args = ((child_setup env silent args).1, .error x) := by
  unfold child_body
  rw [bind_eq, andThen_of_error _ _ x h]

theorem parse_options_events (argv0 : String) (opts : List getopt_result) (ca : child_args)
    (silent : Bool) :
    (∀ e ∈ (parse_options argv0 opts ca silent).1, ∃ t, e = .cout t) ∧
    ((parse_options argv0 opts ca silent).2 ≠ .exited →
      (parse_options argv0 opts ca silent).1 = []) := by
  induction opts generalizing ca silent with
  | nil => simp [parse_options]
  | cons r rs ih =>
    rw [parse_options]
    split_ifs <;> first | exact ih _ _ | simp

theorem main_body_no_program (env : SupEnv) (ca0 : child_args) (silent : Bool)
    (h : env.rest = []) :
    main_body env ca0 silent = ([], .error (.runtime_error "No program specified, exiting")) := by
  unfold main_body
  rw [if_pos h]
  rfl

theorem main_body_step (env : SupEnv) (ca0 : child_args) (silent : Bool)
    (h : env.rest ≠ []) (hp : env.pipe_ret ≠ -1) :
    main_body env ca0 silent =
      Run.andThen (spawn_calls env ca0 silent, (.ok () : Except Exn Unit)) fun _ =>
        if env.clone_ret = -1 then raise (.errno_except "Error in clone")
        else
          Run.andThen (set_ugid env.open_ok env.write_ok env.clone_ret env.uid env.gid)
            fun _ =>
              ([.close env.pipe_fds.2, .wait env.wait_ret none],
               if env.clone_ret ≠ env.wait_ret then .error (.errno_except "Error in wait")
               else .ok 0) := by
  unfold main_body spawn_calls
  rw [if_neg h]
  simp only [bind_eq, andThen_emit, if_neg hp]
  have hw : ∀ x : Run Unit, x.2 = .ok () → ∀ f : Unit → Run Int,
      Run.andThen x f = (x.1 ++ (f ()).1, (f ()).2) := fun x hx f => andThen_of_ok x f () hx
  rw [hw _ (by split; exact LOG_BASE_snd _ _ _; rfl)]
  simp only [andThen_ok, andThen_emit, List.append_assoc, List.singleton_append,
    List.cons_append]
  by_cases hc : env.clone_ret = -1
  · simp [hc, raise]
  · simp only [hc, if_false]
    have hin : (fun _ : Unit =>
          (Event.close env.pipe_fds.2 ::
            Event.wait env.wait_ret none ::
              (if env.clone_ret ≠ env.wait_ret then
                (raise (Exn.errno_except "Error in wait") : Run Int)
                else pure 0).1,
            (if env.clone_ret ≠ env.wait_ret then
              (raise (Exn.errno_except "Error in wait") : Run Int)
              else pure 0).2))
        = fun _ : Unit => ([Event.close env.pipe_fds.2, Event.wait env.wait_ret none],
            if env.clone_ret ≠ env.wait_ret then Except.error (Exn.errno_except "Error in wait")
            else Except.ok 0) := by
      funext _
      by_cases hwt : env.clone_ret = env.wait_ret <;> simp [hwt, raise, pure_eq]
    rw [hin]
    simp only [List.nil_append]

theorem all_w_func {P : Event → Prop} (hP : SupSafe P) (fname : String) (id : Int)
    (stropt : Option String) (o w : Bool) : ∀ e ∈ (w_func fname id stropt o w).1, P e := by
  rw [w_func_eq]
  intro e he
  cases o
  · simp only [if_true, List.mem_singleton] at he
    rw [he]
    exact hP.sopen _ _ _
  · simp only [Bool.true_eq_false, if_false, List.mem_cons, List.mem_singleton,
      List.not_mem_nil, or_false] at he
    rcases he with rfl | rfl
    · exact hP.sopen _ _ _
    · exact hP.swrite _ _ _

theorem all_set_ugid {P : Event → Prop} (hP : SupSafe P) (open_ok write_ok : Nat → Bool)
    (pid : Int) (uid gid : Nat) :
    ∀ e ∈ (set_ugid open_ok write_ok pid uid gid).1, P e := by
  unfold set_ugid
  simp only [bind_eq]
  apply all_andThen _ _ (all_w_func hP _ _ _ _ _)
  intro _
  apply all_andThen _ _ (all_w_func hP _ _ _ _ _)
  intro _
  exact all_w_func hP _ _ _ _ _

theorem all_spawn_calls {P : Event → Prop} (hP : SupSafe P) (env : SupEnv) (ca0 : child_args)
    (silent : Bool) : ∀ e ∈ spawn_calls env ca0 silent, P e := by
  unfold spawn_calls
  intro e he
  simp only [List.mem_cons, List.mem_append, List.mem_singleton, List.not_mem_nil,
    or_false] at he
  rcases he with rfl | he | rfl
  · exact hP.pipe _
  · revert he
    split
    · exact all_LOG_BASE _ _ _ hP.log e
    · exact all_pure _ e
  · exact hP.clone _ _

theorem all_main_body {P : Event → Prop} (hP : SupSafe P) (env : SupEnv) (ca0 : child_args)
    (silent : Bool) : ∀ e ∈ (main_body env ca0 silent).1, P e := by
  by_cases h : env.rest = []
  · rw [main_body_no_program _ _ _ h]
    simp
  · by_cases hp : env.pipe_ret = -1
    · unfold main_body
      rw [if_neg h]
      simp only [bind_eq, andThen_emit, if_pos hp]
      intro e he
      simp only [raise, List.mem_singleton] at he
      rw [he]
      exact hP.pipe _
    · rw [main_body_step _ _ _ h hp]
      refine all_andThen (spawn_calls env ca0 silent, (.ok () : Except Exn Unit)) _
        (all_spawn_calls hP env ca0 silent) ?_
      intro _
      split
      · exact all_raise _
      · apply all_andThen _ _ (all_set_ugid hP _ _ _ _ _)
        intro _ e he
        simp only [List.mem_cons, List.mem_singleton, List.not_mem_nil, or_false] at he
        rcases he with rfl | rfl
        · exact hP.close _
        · exact hP.wait _ _

theorem all_main {P : Event → Prop} (hP : SupSafe P) (env : SupEnv) :
    ∀ e ∈ (main env).1, P e := by
  have hstart : ∀ e ∈ (LOG_INFO false "Starting emajail ...").1, P e :=
    all_LOG_BASE _ _ _ hP.log
  have hparse : ∀ e ∈ (parse_options env.argv0 env.opts ca_init false).1, P e := by
    intro e he
    obtain ⟨t, rfl⟩ := (parse_options_events _ _ _ _).1 e he
    exact hP.cout t
  have hlog : ∀ s l, ∀ e ∈ (LOG_ERR s l).1, P e := fun s l => all_LOG_BASE _ _ _ hP.log
  unfold main
  generalize parse_options env.argv0 env.opts ca_init false = pr at hparse
  obtain ⟨evs, res⟩ := pr
  cases res with
  | exited =>
    intro e he
    simp only [List.mem_append] at he
    rcases he with he | he
    · exact hstart e he
    · exact hparse e he
  | unknown silent =>
    intro e he
    simp only [List.mem_append] at he
    rcases he with (he | he) | he
    · exact hstart e he
    · exact hparse e he
    · exact hlog _ _ e he
  | options ca silent =>
    have hb := all_main_body hP env ca silent
    simp only
    generalize main_body env ca silent = mb at hb
    obtain ⟨evs2, r2⟩ := mb
    cases r2 with
    | ok rc =>
      intro e he
      simp only [List.mem_append] at he
      rcases he with (he | he) | he
      · exact hstart e he
      · exact hparse e he
      · exact hb e he
    | error x =>
      intro e he
      simp only [List.mem_append] at he
      rcases he with ((he | he) | he) | he
      · exact hstart e he
      · exact hparse e he
      · exact hb e he
      · exact hlog _ _ e he

theorem clone_flags_congr (ca : child_args) :
    clone_flags ca = clone_flags ⟨[], none, (-1, -1), false, ca.empty_proc, ca.strict_mode⟩ :=
  rfl

theorem clone_flags_table (ep sm : Bool) :
    has_flag (clone_flags ⟨[], none, (-1, -1), false, ep, sm⟩)
      CLONE_NEWNS = true ∧
    has_flag (clone_flags ⟨[], none, (-1, -1), false, ep, sm⟩)
      CLONE_NEWUSER = true ∧
    (has_flag (clone_flags ⟨[], none, (-1, -1), false, ep, sm⟩)
      CLONE_NEWPID = true ↔ (ep = true ∨ sm = true)) ∧
    (has_flag (clone_flags ⟨[], none, (-1, -1), false, ep, sm⟩)
      CLONE_NEWIPC = true ↔ sm = true) ∧
    (ep = false ∧ sm = false →
      namespace_set (clone_flags ⟨[], none, (-1, -1), false, ep, sm⟩)
        = [CLONE_NEWNS, CLONE_NEWUSER] ∧
      clone_flags ⟨[], none, (-1, -1), false, ep, sm⟩
        = CLONE_NEWNS ||| CLONE_NEWUSER ||| SIGCHLD) := by
  cases ep <;> cases sm <;> decide

/-- Claim C1.  For every configuration, the flag word `main` computes and passes to `clone`
contains the mount and user namespace bits; it contains the process-id bit exactly when
`empty_proc` or `strict_mode` is set and the IPC bit exactly when `strict_mode` is set.
With both off the namespaces asked for are exactly mount and user (the word is
`CLONE_NEWNS | CLONE_NEWUSER | SIGCHLD`), and `strict_mode` gives both IPC and process-id
isolation.  Every `clone` call in a run of `main` carries the word computed from the
arguments it passes. -/
theorem C1_namespace_flags (ca : child_args) :
    has_flag (clone_flags ca) CLONE_NEWNS = true ∧
    has_flag (clone_flags ca) CLONE_NEWUSER = true ∧
    (has_flag (clone_flags ca) CLONE_NEWPID = true ↔
      (ca.empty_proc = true ∨ ca.strict_mode = true)) ∧
    (has_flag (clone_flags ca) CLONE_NEWIPC = true ↔ ca.strict_mode = true) ∧
    (ca.empty_proc = false ∧ ca.strict_mode = false →
      namespace_set (clone_flags ca) = [CLONE_NEWNS, CLONE_NEWUSER] ∧
      clone_flags ca = CLONE_NEWNS ||| CLONE_NEWUSER ||| SIGCHLD) ∧
    (ca.strict_mode = true →
      has_flag (clone_flags ca) CLONE_NEWIPC = true ∧
      has_flag (clone_flags ca) CLONE_NEWPID = true) ∧
    (∀ (env : SupEnv) (fl : Nat) (args : child_args) (ret : Int),
      Event.clone fl args ret ∈ (main env).1 → fl = clone_flags args) := by
  have hmain : ∀ (env : SupEnv) (fl : Nat) (args : child_args) (ret : Int),
      Event.clone fl args ret ∈ (main env).1 → fl = clone_flags args := by
    intro env fl args ret hmem
    have hP : SupSafe (fun e => ∀ fl args ret, e = Event.clone fl args ret →
        fl = clone_flags args) := by
      constructor
      · intro _ _ _ _ _ h
        cases h
      · intro _ _ _ _ h
        cases h
      · intro _ _ _ _ h
        cases h
      · intro ca r fl args ret h
        injection h with h1 h2 h3
        rw [← h1, ← h2]
      · intro _ _ _ _ h
        cases h
      · intro _ _ _ _ _ h
        cases h
      · intro _ _ _ _ _ _ h
        cases h
      · intro _ _ _ _ _ _ h
        cases h
    exact all_main hP env _ hmem fl args ret rfl
  have ht := clone_flags_table ca.empty_proc ca.strict_mode
  rw [← clone_flags_congr] at ht
  obtain ⟨h1, h2, h3, h4, h5⟩ := ht
  refine ⟨h1, h2, h3, h4, h5, ?_, hmain⟩
  intro hs
  exact ⟨h4.mpr hs, h3.mpr (Or.inr hs)⟩

theorem main_of_options (env : SupEnv) (evs : List Event) (ca : child_args) (silent : Bool)
    (hparse : parse_options env.argv0 env.opts ca_init false = (evs, .options ca silent))
    (rc : Int) (hb : (main_body env ca silent).2 = .ok rc) : (main env).2 = rc := by
  unfold main
  rw [hparse]
  simp only
  generalize main_body env ca silent = mb at hb
  obtain ⟨evs2, r2⟩ := mb
  simp only at hb
  subst hb
  rfl

theorem main_of_options_error (env : SupEnv) (evs : List Event) (ca : child_args)
    (silent : Bool)
    (hparse : parse_options env.argv0 env.opts ca_init false = (evs, .options ca silent))
    (x : Exn) (hb : (main_body env ca silent).2 = .error x) : (main env).2 = -1 := by
  unfold main
  rw [hparse]
  simp only
  generalize main_body env ca silent = mb at hb
  obtain ⟨evs2, r2⟩ := mb
  simp only at hb
  subst hb
  rfl

theorem main_body_supervised (env : SupEnv) (ca : child_args) (silent : Bool)
    (hrest : env.rest ≠ []) (hpipe : env.pipe_ret ≠ -1) (hclone : env.clone_ret ≠ -1)
    (hmap : ∀ i, i < 3 → env.open_ok i = true)
    (hwait : env.wait_ret = env.clone_ret) :
    (main_body env ca silent).2 = .ok 0 := by
  obtain ⟨n, -, -, hok, -⟩ :=
    set_ugid_calls env.open_ok env.write_ok env.clone_ret env.uid env.gid
  rw [main_body_step _ _ _ hrest hpipe]
  simp only [andThen_ok, if_neg hclone]
  rw [andThen_of_ok _ _ () (hok.mpr hmap)]
  simp [hwait]

/-- Claim C7.  Whatever status `wait` reports for the target command: when the setup of the
namespaced process succeeds, `fork` returns a child id and `wait` returns that id,
`child_func` logs the status and returns 0; and when the supervisor has a command, and its
`pipe`, `clone`, mapping writes and `wait` succeed, `main` returns 0. -/
theorem C7_target_status_not_propagated (cenv : ChildEnv) (silent : Bool)
    (args : child_args) (senv : SupEnv) :
    ((child_setup cenv silent args).2 = .ok () → cenv.fork_ret ≠ -1 → cenv.fork_ret ≠ 0 →
      cenv.wait_ret = cenv.fork_ret →
      (child_func cenv silent args).2 = Exit.returned 0 ∧
      (child_func cenv silent args).1 =
        (child_setup cenv silent args).1
          ++ [.fork cenv.fork_ret, .wait cenv.wait_ret (some cenv.wait_status)]
          ++ (LOG_INFO silent ("Child process (" ++ args.argv.headD "" ++
                ") exited with code " ++ toString cenv.wait_status)).1) ∧
    (∀ evs ca s, parse_options senv.argv0 senv.opts ca_init false = (evs, .options ca s) →
      senv.rest ≠ [] → senv.pipe_ret ≠ -1 → senv.clone_ret ≠ -1 →
      (∀ i, i < 3 → (senv.open_ok i = true ∧ senv.write_ok i = true)) →
      senv.wait_ret = senv.clone_ret →
      (main senv).2 = 0) := by
  constructor
  · intro hsetup hf1 hf0 hw
    have hb := child_body_of_setup_ok cenv silent args hsetup
    rw [child_exec_eq, if_neg hf1, if_neg hf0, if_neg (not_not.mpr hw.symm)] at hb
    rw [child_func_of_ok cenv silent args (Exit.returned 0) (by rw [hb]), hb]
    simp
  · intro evs ca s hparse hrest hpipe hclone hmap hwait
    exact main_of_options senv evs ca s hparse 0
      (main_body_supervised senv ca s hrest hpipe hclone (fun i hi => (hmap i hi).1) hwait)

theorem setup_pulseaudio_ok (env : ChildEnv) (silent : Bool)
    (h : (setup_pulseaudio env silent).2 = .ok ()) :
    env.sys_pulse = none ∨ ∃ cur_home, env.home = some cur_home := by
  unfold setup_pulseaudio at h
  cases hs : env.sys_pulse with
  | none => exact Or.inl rfl
  | some g =>
    cases hh : env.home with
    | none => simp [hs, hh, raise] at h
    | some cur_home => exact Or.inr ⟨cur_home, rfl⟩

theorem child_setup_ok_not_fails (env : ChildEnv) (silent : Bool) (args : child_args)
    (h : (child_setup env silent args).2 = .ok ()) (hf : setup_fails env args = true) :
    env.fork_ret = -1 := by
  obtain ⟨hread, t, hmk, hscratch, hov, hpulse, -⟩ := child_setup_ok env silent args h
  obtain ⟨hloop, hhome, hproc, -⟩ := setup_overlays_ok _ _ _ _ _ hov
  have hsel := overlay_loop_ok _ _ _ _ hloop
  unfold setup_fails at hf
  simp only [Bool.or_eq_true, Bool.and_eq_true, bne_iff_ne, ne_eq, beq_iff_eq,
    List.any_eq_true, Option.isNone_iff_eq_none, Option.isSome_iff_exists] at hf
  rcases hf with ((((((((hf | hf) | hf) | hf) | hf) | hf) | hf) | hf) | hf) | hf
  · exact absurd hread hf
  · rw [hmk] at hf
    cases hf
  · exact absurd hf.2 (hscratch hf.1)
  · obtain ⟨e, he, hs, hm⟩ := hf
    exact absurd hm (hsel e he hs)
  · exact absurd hf.2 (empty_home_block_ok env silent (hhome hf.1)).1
  · obtain ⟨c, hc, -⟩ := (empty_home_block_ok env silent (hhome hf.1.1)).2 hf.1.2
    rw [hc] at hf
    cases hf.2
  · obtain ⟨c, -, hc⟩ := (empty_home_block_ok env silent (hhome hf.1.1)).2 hf.1.2
    exact absurd hc hf.2
  · have := hproc hf.1
    rw [empty_proc_block_eq, if_pos hf.2] at this
    cases this
  · obtain ⟨⟨hp, g, hg⟩, hn⟩ := hf
    have hp' : (args.strict_mode || args.empty_proc) = true := by
      simpa [Bool.or_eq_true] using hp
    rcases setup_pulseaudio_ok env silent (hpulse hp') with h1 | ⟨c, hc⟩
    · rw [h1] at hg
      cases hg
    · rw [hc] at hn
      cases hn
  · exact hf

theorem child_func_no_exec_of_setup_error (env : ChildEnv) (silent : Bool)
    (args : child_args) (x : Exn) (h : (child_setup env silent args).2 = .error x) :
    (child_func env silent args).2 = Exit.returned (-1) ∧
    ∀ e ∈ (child_func env silent args).1, is_fork_or_exec e = false := by
  have hb := child_body_of_setup_error env silent args x h
  rw [child_func_of_error env silent args x (by rw [hb]), hb]
  refine ⟨rfl, ?_⟩
  intro e he
  rcases List.mem_append.mp he with he | he
  · exact all_child_setup safe_no_fork_exec env silent args e he
  · exact @all_LOG_BASE (fun e => is_fork_or_exec e = false) _ _ _ (fun _ _ => rfl) e he

/-- Claim C6, amended.  When the setup of the namespaced process fails, `child_func`
returns -1 and never calls `execvp`.  The supervisor does not forward that status: it waits
with `wait(NULL)`, and whenever a command is given and its own `pipe`, `clone`, the opening
of the three mapping files and `wait` succeed, `main` returns 0, whatever the namespaced
process returned. -/
theorem C6_setup_failure_status (cenv : ChildEnv) (silent : Bool) (args : child_args)
    (senv : SupEnv) :
    (setup_fails cenv args = true →
      (child_func cenv silent args).2 = Exit.returned (-1) ∧
      ∀ f a, Event.execvp f a ∉ (child_func cenv silent args).1) ∧
    (∀ evs ca s, parse_options senv.argv0 senv.opts ca_init false = (evs, .options ca s) →
      senv.rest ≠ [] → senv.pipe_ret ≠ -1 → senv.clone_ret ≠ -1 →
      (∀ i, i < 3 → senv.open_ok i = true) →
      senv.wait_ret = senv.clone_ret →
      (main senv).2 = 0) := by
  refine ⟨?_, fun evs ca s hparse hrest hpipe hclone hmap hwait =>
    main_of_options senv evs ca s hparse 0
      (main_body_supervised senv ca s hrest hpipe hclone hmap hwait)⟩
  intro hf
  cases hs : (child_setup cenv silent args).2 with
  | error x =>
    obtain ⟨h1, h2⟩ := child_func_no_exec_of_setup_error cenv silent args x hs
    refine ⟨h1, ?_⟩
    intro f a hmem
    have := h2 _ hmem
    simp [is_fork_or_exec] at this
  | ok u =>
    have hfork := child_setup_ok_not_fails cenv silent args hs hf
    have hb := child_body_of_setup_ok cenv silent args hs
    rw [child_exec_eq, if_pos hfork] at hb
    rw [child_func_of_error cenv silent args _ (by rw [hb]), hb]
    refine ⟨rfl, ?_⟩
    intro f a hmem
    simp only [List.mem_append, List.mem_singleton] at hmem
    rcases hmem with (hmem | hmem) | hmem
    · have := all_child_setup safe_no_fork_exec cenv silent args _ hmem
      simp [is_fork_or_exec] at this
    · cases hmem
    · have := @all_LOG_BASE (fun e => is_fork_or_exec e = false) silent "ERR" _
        (fun _ _ => rfl) _ hmem
      simp [is_fork_or_exec] at this

theorem setup_overlays_first_failure (env : ChildEnv) (silent : Bool) (basepath : String)
    (empty_home empty_proc : Bool) (pre : List RootEntry) (e : RootEntry)
    (post : List RootEntry) (hroot : env.root = pre ++ e :: post)
    (hpre : ∀ p ∈ pre, selected empty_home p.ent = true → p.mount_ret ≠ -1)
    (hs : selected empty_home e.ent = true) (hf : e.mount_ret = -1) :
    setup_overlays env silent basepath empty_home empty_proc =
      (.mkdir basepath 0o755 env.mkdir_base_ret ::
        ((pre.filter fun p => selected empty_home p.ent).flatMap
            (overlay_events silent basepath) ++ overlay_events silent basepath e),
       .error (.errno_except "Error in mount")) := by
  unfold setup_overlays
  simp only [bind_eq, andThen_emit]
  rw [hroot, overlay_loop_first_failure _ _ _ _ _ _ hpre hs hf]
  rfl

theorem overlay_events_last (silent : Bool) (basepath : String) (e : RootEntry) :
    ∃ init, overlay_events silent basepath e =
      init ++ [.mount "overlay" ("/" ++ e.ent.d_name) "overlay" MS_MGC_VAL
        (some ("lowerdir=/" ++ e.ent.d_name ++ ",upperdir=" ++ basepath ++ "/"
          ++ e.ent.d_name ++ "/upper,workdir=" ++ basepath ++ "/" ++ e.ent.d_name
          ++ "/work")) e.mount_ret] := by
  unfold overlay_events
  rw [mount_func_fst, mount_opt_eq]
  exact ⟨(LOG_INFO silent ("Overlaying " ++ e.ent.d_name ++ " ...")).1 ++
    [.mkdir (basepath ++ "/" ++ e.ent.d_name) 0o755 e.bpath_ret,
     .mkdir (basepath ++ "/" ++ e.ent.d_name ++ "/upper") 0o755 e.upper_ret,
     .mkdir (basepath ++ "/" ++ e.ent.d_name ++ "/work") 0o755 e.work_ret], by simp⟩

theorem overlay_events_eq (silent : Bool) (basepath : String) (e : RootEntry) :
    overlay_events silent basepath e =
      (LOG_INFO silent ("Overlaying " ++ e.ent.d_name ++ " ...")).1 ++
      [ .mkdir (basepath ++ "/" ++ e.ent.d_name) 0o755 e.bpath_ret,
        .mkdir (basepath ++ "/" ++ e.ent.d_name ++ "/upper") 0o755 e.upper_ret,
        .mkdir (basepath ++ "/" ++ e.ent.d_name ++ "/work") 0o755 e.work_ret,
        .mount "overlay" ("/" ++ e.ent.d_name) "overlay" MS_MGC_VAL
          (some ("lowerdir=/" ++ e.ent.d_name ++ ",upperdir=" ++ basepath ++ "/"
            ++ e.ent.d_name ++ "/upper,workdir=" ++ basepath ++ "/" ++ e.ent.d_name
            ++ "/work")) e.mount_ret ] := by
  unfold overlay_events
  rw [mount_func_fst, mount_opt_eq]

/-- The loop reaches every selected entry before which no overlay mount failed. -/
theorem overlay_loop_reach (silent : Bool) (basepath : String) (empty_home : Bool)
    (pre : List RootEntry) (e : RootEntry) (post : List RootEntry)
    (hpre : ∀ p ∈ pre, selected empty_home p.ent = true → p.mount_ret ≠ -1)
    (hs : selected empty_home e.ent = true) :
    ∃ B, (overlay_loop silent basepath empty_home (pre ++ e :: post)).1
      = (pre.filter fun p => selected empty_home p.ent).flatMap
          (overlay_events silent basepath) ++ overlay_events silent basepath e ++ B := by
  induction pre with
  | nil =>
    rw [List.nil_append, overlay_loop_cons_sel _ _ _ _ _ hs]
    split
    · exact ⟨[], by simp⟩
    · exact ⟨(overlay_loop silent basepath empty_home post).1, by simp⟩
  | cons p rest ih =>
    obtain ⟨B, hB⟩ := ih (fun x hx => hpre x (List.mem_cons_of_mem _ hx))
    rw [List.cons_append]
    by_cases hp : selected empty_home p.ent = true
    · rw [overlay_loop_cons_sel _ _ _ _ _ hp, if_neg (hpre p (List.mem_cons_self _ _) hp), hB]
      exact ⟨B, by simp [List.filter_cons, hp]⟩
    · simp only [Bool.not_eq_true] at hp
      rw [overlay_loop_cons_skip _ _ _ _ _ hp, hB]
      exact ⟨B, by simp [List.filter_cons, hp]⟩

/-- Claim C9, amended.  For every base path and every selected root entry before which no
overlay mount failed, `setup_overlays` calls `mkdir` on `base/name`, then on
`base/name/upper` and on `base/name/work`, and directly after them issues the mount call
for that entry, with target `/name`, type `overlay` and option string
`lowerdir=/name,upperdir=base/name/upper,workdir=base/name/work`.  The results of the
three `mkdir` calls are whatever the system returns: they are not inspected, and the
mount call is issued also when they fail.  The calls before this block hold the overlay
mounts of the earlier selected entries and no other. -/
theorem C9_overlay_mount_call (env : ChildEnv) (silent : Bool) (basepath : String)
    (empty_home empty_proc : Bool) (pre : List RootEntry) (e : RootEntry)
    (post : List RootEntry) (hroot : env.root = pre ++ e :: post)
    (hpre : ∀ p ∈ pre, selected empty_home p.ent = true → p.mount_ret ≠ -1)
    (hs : selected empty_home e.ent = true) :
    ∃ A B, (setup_overlays env silent basepath empty_home empty_proc).1 =
        A ++
        [ .mkdir (basepath ++ "/" ++ e.ent.d_name) 0o755 e.bpath_ret,
          .mkdir (basepath ++ "/" ++ e.ent.d_name ++ "/upper") 0o755 e.upper_ret,
          .mkdir (basepath ++ "/" ++ e.ent.d_name ++ "/work") 0o755 e.work_ret,
          .mount "overlay" ("/" ++ e.ent.d_name) "overlay" MS_MGC_VAL
            (some ("lowerdir=/" ++ e.ent.d_name ++ ",upperdir=" ++ basepath ++ "/"
              ++ e.ent.d_name ++ "/upper,workdir=" ++ basepath ++ "/" ++ e.ent.d_name
              ++ "/work")) e.mount_ret ] ++ B ∧
      overlay_targets A =
        (pre.filter fun p => selected empty_home p.ent).map fun p => "/" ++ p.ent.d_name := by
  obtain ⟨B, hB⟩ := overlay_loop_reach silent basepath empty_home pre e post hpre hs
  have hinit : (overlay_loop silent basepath empty_home env.root).1 <+:
      (Run.andThen (overlay_loop silent basepath empty_home env.root) fun _ =>
        Run.andThen (if empty_home = true then empty_home_block env silent else pure ())
          fun _ => if empty_proc = true then empty_proc_block env else pure ()).1 :=
    andThen_fst_initial _ _
  obtain ⟨T, hT⟩ := hinit
  refine ⟨.mkdir basepath 0o755 env.mkdir_base_ret ::
      ((pre.filter fun p => selected empty_home p.ent).flatMap
        (overlay_events silent basepath)
      ++ (LOG_INFO silent ("Overlaying " ++ e.ent.d_name ++ " ...")).1), B ++ T, ?_, ?_⟩
  · unfold setup_overlays
    simp only [bind_eq, andThen_emit]
    rw [← hT, hroot, hB, overlay_events_eq]
    simp only [List.append_assoc, List.cons_append]
  · rw [show (Event.mkdir basepath 0o755 env.mkdir_base_ret ::
        ((pre.filter fun p => selected empty_home p.ent).flatMap
          (overlay_events silent basepath)
        ++ (LOG_INFO silent ("Overlaying " ++ e.ent.d_name ++ " ...")).1))
      = [Event.mkdir basepath 0o755 env.mkdir_base_ret] ++
        ((pre.filter fun p => selected empty_home p.ent).flatMap
          (overlay_events silent basepath)
        ++ (LOG_INFO silent ("Overlaying " ++ e.ent.d_name ++ " ...")).1) from rfl,
      overlay_targets_append, overlay_targets_append, overlay_targets_flatMap]
    cases silent <;> simp [overlay_targets, LOG_INFO, LOG_BASE, emit, pure_eq]

/-- The calls of `child_setup` before `setup_overlays` when the barrier is passed and the
scratch directory exists. -/
theorem child_setup_of_overlay_error (env : ChildEnv) (silent : Bool) (args : child_args)
    (t : String) (x : Exn) (hread : env.read_ret = 0) (hmk : env.mkdtemp_ret = some t)
    (hscratch : args.overlayfs = none → env.scratch_mount_ret ≠ -1)
    (hov : (setup_overlays env silent (args.overlayfs.getD t) args.empty_home
      args.empty_proc).2 = .error x) :
    child_setup env silent args =
      ([.close args.pipe_fd.2, .read args.pipe_fd.1 env.read_ret,
        .mkdtemp "/dev/shm/emajail_XXXXXX" env.mkdtemp_ret]
        ++ (match args.overlayfs with
            | some _ => []
            | none => [.mount "tmpfs" t "tmpfs"
                (MS_NOSUID ||| MS_NODEV ||| MS_NOEXEC ||| MS_STRICTATIME ||| MS_REC) (some "")
                env.scratch_mount_ret])
        ++ (setup_overlays env silent (args.overlayfs.getD t) args.empty_home
              args.empty_proc).1,
       .error x) := by
  unfold child_setup
  simp only [bind_eq, andThen_emit]
  rw [if_neg (not_not.mpr hread), andThen_of_ok _ _ t (by rw [tmp_dir_eq, hmk]), tmp_dir_eq]
  cases ho : args.overlayfs with
  | some o =>
    rw [ho] at hov
    simp only [Option.getD_some] at hov ⊢
    rw [andThen_of_error _ _ x hov]
    simp
  | none =>
    rw [ho] at hov
    simp only [Option.getD_none] at hov ⊢
    simp only [andThen_emit, if_neg (hscratch ho)]
    rw [hov]
    simp

theorem child_func_trace_of_setup_ok (env : ChildEnv) (silent : Bool) (args : child_args)
    (h : (child_setup env silent args).2 = .ok ()) :
    ∃ L, (child_func env silent args).1 =
        (child_setup env silent args).1 ++ ((child_exec env silent args).1 ++ L) ∧
      ∀ e ∈ L, is_fork_or_exec e = false := by
  have hb := child_body_of_setup_ok env silent args h
  cases hx : (child_exec env silent args).2 with
  | ok r =>
    rw [child_func_of_ok env silent args r (by rw [hb, hx]), hb]
    exact ⟨[], by simp, by simp⟩
  | error x =>
    rw [child_func_of_error env silent args x (by rw [hb, hx]), hb]
    exact ⟨(LOG_ERR silent ("Exception: " ++ what env.err x)).1, by simp,
      @all_LOG_BASE (fun e => is_fork_or_exec e = false) silent "ERR" _ (fun _ _ => rfl)⟩

theorem child_exec_head (env : ChildEnv) (silent : Bool) (args : child_args) :
    ∃ rest, (child_exec env silent args).1 = .fork env.fork_ret :: rest := by
  unfold child_exec
  simp only [bind_eq, andThen_emit]
  exact ⟨_, rfl⟩

theorem child_exec_execvp (env : ChildEnv) (silent : Bool) (args : child_args)
    (f : String) (a : List String) (h : Event.execvp f a ∈ (child_exec env silent args).1) :
    env.fork_ret = 0 := by
  rw [child_exec_eq] at h
  by_contra h0
  by_cases h1 : env.fork_ret = -1
  · rw [if_pos h1] at h
    simp at h
  · rw [if_neg h1, if_neg h0] at h
    by_cases h3 : env.fork_ret = env.wait_ret
    · rw [if_neg (not_not.mpr h3)] at h
      simp only [List.mem_append, List.mem_cons, List.mem_singleton, List.not_mem_nil,
        or_false] at h
      rcases h with (h | h) | h
      · cases h
      · cases h
      · have := @all_LOG_BASE (fun e => is_fork_or_exec e = false) silent "INFO" _
          (fun _ _ => rfl) _ h
        simp [is_fork_or_exec] at this
    · rw [if_pos h3] at h
      simp at h

/-- Claim C10.  When the overlay mount of a selected entry is the first to fail, the calls
of `child_func` are: the barrier, the scratch directory, the overlays of the selected
entries before it, the three `mkdir` calls and the failing `mount` for it, and the error
line; nothing more is attempted (no later entry, no unmount, no home or proc mount, no
audio adapter, no `fork` or `execvp`) and `child_func` returns -1.  Conversely, when
`execvp` is called, the overlay mount of every selected entry, and the home and proc
mounts when requested, were issued before the `fork` and succeeded. -/
theorem C10_overlay_mount_failure_fatal (env : ChildEnv) (silent : Bool) (args : child_args) :
    (∀ (t : String) (pre : List RootEntry) (e : RootEntry) (post : List RootEntry),
      env.read_ret = 0 → env.mkdtemp_ret = some t →
      (args.overlayfs = none → env.scratch_mount_ret ≠ -1) →
      env.root = pre ++ e :: post →
      (∀ p ∈ pre, selected args.empty_home p.ent = true → p.mount_ret ≠ -1) →
      selected args.empty_home e.ent = true → e.mount_ret = -1 →
      child_func env silent args =
        ([.close args.pipe_fd.2, .read args.pipe_fd.1 env.read_ret,
          .mkdtemp "/dev/shm/emajail_XXXXXX" env.mkdtemp_ret]
          ++ (match args.overlayfs with
              | some _ => []
              | none => [.mount "tmpfs" t "tmpfs"
                  (MS_NOSUID ||| MS_NODEV ||| MS_NOEXEC ||| MS_STRICTATIME ||| MS_REC)
                  (some "") env.scratch_mount_ret])
          ++ .mkdir (args.overlayfs.getD t) 0o755 env.mkdir_base_ret ::
              ((pre.filter fun p => selected args.empty_home p.ent).flatMap
                  (overlay_events silent (args.overlayfs.getD t))
                ++ overlay_events silent (args.overlayfs.getD t) e)
          ++ (LOG_ERR silent ("Exception: " ++
                what env.err (.errno_except "Error in mount"))).1,
         Exit.returned (-1)) ∧
      (∃ init, overlay_events silent (args.overlayfs.getD t) e =
        init ++ [.mount "overlay" ("/" ++ e.ent.d_name) "overlay" MS_MGC_VAL
          (some ("lowerdir=/" ++ e.ent.d_name ++ ",upperdir=" ++ args.overlayfs.getD t ++ "/"
            ++ e.ent.d_name ++ "/upper,workdir=" ++ args.overlayfs.getD t ++ "/"
            ++ e.ent.d_name ++ "/work")) (-1)]) ∧
      (∀ ev ∈ (child_func env silent args).1, is_fork_or_exec ev = false)) ∧
    (∀ f a, Event.execvp f a ∈ (child_func env silent args).1 →
      (∀ r ∈ env.root, selected args.empty_home r.ent = true →
        r.mount_ret ≠ -1 ∧
        ∃ data, Event.mount "overlay" ("/" ++ r.ent.d_name) "overlay" MS_MGC_VAL data
          r.mount_ret ∈ before is_fork_or_exec (child_func env silent args).1) ∧
      (args.empty_home = true →
        env.home_mount_ret ≠ -1 ∧
        Event.mount "tmpfs" (if env.uid ≠ 0 then "/home" else "/root") "tmpfs"
          (MS_NOSUID ||| MS_NODEV ||| MS_NOEXEC ||| MS_STRICTATIME ||| MS_REC)
          (some (if env.uid ≠ 0 then "mode=755" else "mode=700")) env.home_mount_ret
          ∈ before is_fork_or_exec (child_func env silent args).1) ∧
      (args.empty_proc = true →
        env.proc_mount_ret ≠ -1 ∧
        Event.mount "proc" "/proc" "proc" (MS_NOSUID ||| MS_NOEXEC ||| MS_NODEV ||| MS_REC)
          none env.proc_mount_ret
          ∈ before is_fork_or_exec (child_func env silent args).1)) := by
  constructor
  · intro t pre e post hread hmk hscratch hroot hpre hs hf
    have hso := setup_overlays_first_failure env silent (args.overlayfs.getD t)
      args.empty_home args.empty_proc pre e post hroot hpre hs hf
    have hsetup := child_setup_of_overlay_error env silent args t
      (.errno_except "Error in mount") hread hmk hscratch (by rw [hso])
    have hserr : (child_setup env silent args).2 = .error (.errno_except "Error in mount") := by
      rw [hsetup]
    have hb := child_body_of_setup_error env silent args _ hserr
    refine ⟨?_, ?_, (child_func_no_exec_of_setup_error env silent args _ hserr).2⟩
    · rw [child_func_of_error env silent args _ (by rw [hb]), hb, hsetup, hso]
    · obtain ⟨init, hinit⟩ := overlay_events_last silent (args.overlayfs.getD t) e
      rw [hf] at hinit
      exact ⟨init, hinit⟩
  · intro f a hmem
    cases hs : (child_setup env silent args).2 with
    | error x =>
      have := (child_func_no_exec_of_setup_error env silent args x hs).2 _ hmem
      simp [is_fork_or_exec] at this
    | ok u =>
      obtain ⟨L, hτ, -⟩ := child_func_trace_of_setup_ok env silent args hs
      obtain ⟨rest, hrest⟩ := child_exec_head env silent args
      have hbefore : before is_fork_or_exec (child_func env silent args).1
          = (child_setup env silent args).1 := by
        unfold before
        rw [hτ, List.takeWhile_append_of_pos (by
          intro x hx
          simp [all_child_setup safe_no_fork_exec env silent args x hx]), hrest,
          List.cons_append, List.takeWhile_cons_of_neg (by simp [is_fork_or_exec])]
        simp
      rw [hbefore]
      obtain ⟨-, t, -, -, hov, -, pre, post, hdec⟩ := child_setup_ok env silent args hs
      obtain ⟨hloop, hhome, hproc, hso⟩ := setup_overlays_ok _ _ _ _ _ hov
      have hsel := overlay_loop_ok _ _ _ _ hloop
      have hin : ∀ ev, ev ∈ (setup_overlays env silent (args.overlayfs.getD t)
          args.empty_home args.empty_proc).1 → ev ∈ (child_setup env silent args).1 := by
        intro ev hev
        rw [hdec]
        simp [hev]
      refine ⟨?_, ?_, ?_⟩
      · intro r hr hrs
        refine ⟨hsel r hr hrs, ?_⟩
        obtain ⟨init, hinit⟩ := overlay_events_last silent (args.overlayfs.getD t) r
        refine ⟨some ("lowerdir=/" ++ r.ent.d_name ++ ",upperdir=" ++ args.overlayfs.getD t
          ++ "/" ++ r.ent.d_name ++ "/upper,workdir=" ++ args.overlayfs.getD t ++ "/"
          ++ r.ent.d_name ++ "/work"), hin _ ?_⟩
        rw [hso, overlay_loop_all_ok _ _ _ _ hsel]
        simp only [List.mem_cons, List.mem_append, List.mem_flatMap, List.mem_filter]
        right
        left
        left
        exact ⟨r, ⟨hr, hrs⟩, by rw [hinit]; simp⟩
      · intro he
        refine ⟨(empty_home_block_ok env silent (hhome he)).1, hin _ ?_⟩
        obtain ⟨tail, htail⟩ := empty_home_block_head env silent
        rw [hso, if_pos he, htail]
        simp
      · intro hp
        have hpb := hproc hp
        rw [empty_proc_block_eq] at hpb
        have hne : env.proc_mount_ret ≠ -1 := by
          intro hc
          rw [if_pos hc] at hpb
          cases hpb
        refine ⟨hne, hin _ ?_⟩
        rw [hso, if_pos hp, empty_proc_block_eq]
        simp

theorem file_after_append (path : String) (before : Bytes) (a b : List Event) :
    file_after path before (a ++ b) = file_after path (file_after path before a) b := by
  induction a generalizing before with
  | nil => rfl
  | cons e rest ih =>
    cases e with
    | ofstream_write p data ok =>
      cases ok
      · simp only [List.cons_append, file_after]
        exact ih before
      · simp only [List.cons_append, file_after]
        split
        · exact ih _
        · exact ih _
    | _ =>
      simp only [List.cons_append, file_after]
      exact ih before

theorem file_after_LOG_BASE (path : String) (before : Bytes) (silent : Bool) (t l : String) :
    file_after path before (LOG_BASE silent t l).1 = before := by
  cases silent <;> rfl

theorem copy_loop_all_ok (path : String) (write_ok : Nat → Bool)
    (hw : ∀ k, write_ok k = true) (fuel : Nat) :
    ∀ (k : Nat) (g before : Bytes), g.length < fuel →
      (∃ k', (copy_loop path true write_ok fuel k g).2 = .ok k') ∧
      file_after path before (copy_loop path true write_ok fuel k g).1 = before ++ g := by
  induction fuel with
  | zero =>
    intro k g before h
    omega
  | succ n ih =>
    intro k g before h
    rw [copy_loop]
    simp only [bind_eq, if_true, andThen_emit, hw, Bool.and_self, Bool.not_true,
      Bool.false_eq_true, if_false]
    by_cases hlen : g.length < 2048
    · simp only [hlen, if_true, pure_eq]
      refine ⟨⟨k + 1, rfl⟩, ?_⟩
      simp only [file_after, if_true]
      rw [List.take_of_length_le (by omega)]
    · simp only [hlen, if_false]
      have hdrop : (g.drop 2048).length < n := by
        rw [List.length_drop]
        omega
      obtain ⟨hk, hfile⟩ := ih (k + 1) (g.drop 2048) (before ++ g.take 2048) hdrop
      refine ⟨hk, ?_⟩
      simp only [file_after, if_true]
      rw [hfile, List.append_assoc, List.take_append_drop]

theorem pulse_path_eq (cur_home : String) :
    cur_home ++ "/.config" ++ "/pulse" ++ "/client.conf"
      = cur_home ++ "/.config/pulse/client.conf" := by
  apply String.ext
  simp [String.data_append]

/-- Claim C8, amended.  With the system client configuration present, `HOME` set, and the
local stream opening and accepting every write: if `stat` finds no local `client.conf`,
the file afterwards is what it held (nothing, for a new file), then the bytes of the
system file, then `\nenable-shm = no\n`; if `stat` finds the local file, nothing is
copied and the directive is still appended, so the file afterwards is its previous bytes
followed by the directive. -/
theorem C8_pulse_directive (env : ChildEnv) (silent : Bool) (g_pulse : Bytes) (cur_home : String)
    (before : Bytes) (hsys : env.sys_pulse = some g_pulse) (hhome : env.home = some cur_home)
    (hopen : env.local_open_ok = true) (hwrite : ∀ k, env.local_write_ok k = true) :
    (setup_pulseaudio env silent).2 = .ok () ∧
    (env.local_pulse_stat ≠ 0 →
      file_after (cur_home ++ "/.config/pulse/client.conf") before
        (setup_pulseaudio env silent).1 = before ++ g_pulse ++ SHM_DIRECTIVE) ∧
    (env.local_pulse_stat = 0 →
      file_after (cur_home ++ "/.config/pulse/client.conf") before
        (setup_pulseaudio env silent).1 = before ++ SHM_DIRECTIVE) := by
  unfold setup_pulseaudio
  simp only [hsys, hhome, bind_eq, andThen_emit, hopen, if_true, pulse_path_eq]
  by_cases hstat : env.local_pulse_stat = 0
  · simp only [hstat, beq_self_eq_true, Bool.not_true, Bool.false_eq_true, if_false, pure_eq,
      andThen_ok, List.nil_append, hwrite, ne_eq, not_true_eq_false, false_implies,
      true_implies, true_and]
    refine ⟨LOG_BASE_snd _ _ _, ?_⟩
    simp only [file_after, if_true]
    exact file_after_LOG_BASE _ _ _ _ _
  · have hb : (env.local_pulse_stat == 0) = false := by simpa using hstat
    simp only [hb, Bool.not_false, if_true, ne_eq, hstat, not_false_eq_true, true_implies,
      false_implies, and_true]
    obtain ⟨⟨k', hk⟩, hfile⟩ := copy_loop_all_ok (cur_home ++ "/.config/pulse/client.conf")
      env.local_write_ok hwrite (g_pulse.length + 1) 0 g_pulse before (by omega)
    rw [andThen_of_ok _ _ k' hk]
    simp only [andThen_emit, hwrite]
    refine ⟨LOG_BASE_snd _ _ _, ?_⟩
    simp only [file_after]
    rw [file_after_append, hfile]
    simp only [file_after, if_true]
    exact file_after_LOG_BASE _ _ _ _ _

/-! ## The claims at concrete inputs -/

/-- Claim C1 at the configuration without options. -/
theorem C1_namespace_flags_witness :
    namespace_set (clone_flags ca_init) = [CLONE_NEWNS, CLONE_NEWUSER] ∧
    clone_flags ca_init = CLONE_NEWNS ||| CLONE_NEWUSER ||| SIGCHLD :=
  (C1_namespace_flags ca_init).2.2.2.2.1 ⟨rfl, rfl⟩

/-- Claim C2 fails as stated: with root entries `a` and `b`, both selected, and the overlay
mount over `/a` failing, only `/a` gets a mount call and `b` gets none. -/
theorem C2_overlay_selection_counterexample :
    overlay_targets (setup_overlays child_env_mount_fails false "/scratch" false false).1
      = ["/a"] ∧
    ((child_env_mount_fails.root.filter fun e => selected false e.ent).map
      fun e => "/" ++ e.ent.d_name) = ["/a", "/b"] := by
  decide

/-- Claim C2, the examples of the claim on hosts where every mount succeeds: a root with
`a`, `b`, `proc`, `dev` gets mounts over `/a` and `/b` only; `home` gets none under
`empty_home` and one otherwise. -/
theorem C2_overlay_selection_witness :
    overlay_targets (setup_overlays child_env_ok false "/scratch" false false).1
      = ["/a", "/b"] ∧
    overlay_targets (setup_overlays child_env_home false "/scratch" true false).1
      = ["/a"] ∧
    overlay_targets (setup_overlays child_env_home false "/scratch" false false).1
      = ["/a", "/home"] :=
  ⟨((C2_overlay_selection child_env_ok false "/scratch" false false).2.2.1 (by decide)).trans
      (by decide),
   ((C2_overlay_selection child_env_home false "/scratch" true false).2.2.1 (by decide)).trans
      (by decide),
   ((C2_overlay_selection child_env_home false "/scratch" false false).2.2.1 (by decide)).trans
      (by decide)⟩

/-- Claim C3 at process 4242, user 1000, group 100, with the three streams opening and the
kernel refusing the bytes written to `setgroups`: `set_ugid` does not fail, and it goes on
to open and write `gid_map`. -/
theorem C3_set_ugid_refused_write :
    set_ugid ok3 (fun i => i != 1) 4242 1000 100 =
      ([ .ofstream_open "/proc/4242/uid_map" false true,
         .ofstream_write "/proc/4242/uid_map" "1000 1000 1".toList true,
         .ofstream_open "/proc/4242/setgroups" false true,
         .ofstream_write "/proc/4242/setgroups" "deny".toList false,
         .ofstream_open "/proc/4242/gid_map" false true,
         .ofstream_write "/proc/4242/gid_map" "100 100 1".toList true ], .ok ()) :=
  set_ugid_of_open ok3 (fun i => i != 1) 4242 1000 100 (fun _ _ => rfl)

/-- Claim C4 on the run `emajail -s /bin/false` with the kernel refusing the bytes written
to `setgroups`: the refused write comes before the first `close`, the supervisor still
closes the write end of the pipe, and `main` returns 0. -/
theorem C4_release_after_refused_write :
    Event.ofstream_write "/proc/4242/setgroups" "deny".toList false
      ∈ before is_close (main sup_env_deny_fails).1 ∧
    Event.close 4 ∈ (main sup_env_deny_fails).1 ∧
    (main sup_env_deny_fails).2 = 0 := by
  decide

/-- Claim C5 on a host where the barrier read delivers a byte. -/
theorem C5_barrier_first_witness :
    child_env_barrier_data.read_ret ≠ 0 ∧
    child_func child_env_barrier_data false args_strict =
      ([.close 4, .read 3 1, .log "ERR" "Exception: Sync pipe not properly closed"],
       Exit.returned (-1)) :=
  ⟨by decide, ((C5_barrier_first child_env_barrier_data false args_strict).2 (by decide)).1⟩

/-- Claim C6 fails as stated: in the run `emajail -s /bin/false` on a host where the overlay
mount over `/a` fails, the namespaced process gets the arguments `main` passes to `clone`,
its setup fails and it returns -1, and `main` returns 0. -/
theorem C6_setup_failure_status_counterexample :
    setup_fails child_env_mount_fails args_strict = true ∧
    (child_func child_env_mount_fails false args_strict).2 = Exit.returned (-1) ∧
    Event.clone (clone_flags args_strict) args_strict 4242 ∈ (main sup_env_strict).1 ∧
    (main sup_env_strict).2 = 0 := by
  decide

/-- Claim C6, amended, on the same run. -/
theorem C6_setup_failure_status_witness :
    setup_fails child_env_mount_fails args_strict = true ∧
    (child_func child_env_mount_fails false args_strict).2 = Exit.returned (-1) ∧
    (∀ f a, Event.execvp f a ∉ (child_func child_env_mount_fails false args_strict).1) ∧
    (main sup_env_strict).2 = 0 :=
  ⟨by decide,
   ((C6_setup_failure_status child_env_mount_fails false args_strict sup_env_strict).1
      (by decide)).1,
   ((C6_setup_failure_status child_env_mount_fails false args_strict sup_env_strict).1
      (by decide)).2,
   (C6_setup_failure_status child_env_mount_fails false args_strict sup_env_strict).2 []
     { args_strict with argv := [], pipe_fd := (-1, -1) } false (by decide) (by decide)
     (by decide) (by decide) (fun _ _ => rfl) (by decide)⟩

/-- Claim C7 on the run `emajail -s /bin/false`: the target exits with status 1 (wait
status 256), the status is logged, and both `child_func` and `main` return 0. -/
theorem C7_target_status_not_propagated_witness :
    Event.clone (clone_flags args_strict) args_strict 4242 ∈ (main sup_env_strict).1 ∧
    child_env_ok.wait_status = 256 ∧
    (child_func child_env_ok false args_strict).2 = Exit.returned 0 ∧
    Event.log "INFO" "Child process (/bin/false) exited with code 256"
      ∈ (child_func child_env_ok false args_strict).1 ∧
    (main sup_env_strict).2 = 0 :=
  ⟨by decide, rfl,
   ((C7_target_status_not_propagated child_env_ok false args_strict sup_env_strict).1
      rfl (by decide) (by decide) (by decide)).1,
   by decide,
   (C7_target_status_not_propagated child_env_ok false args_strict sup_env_strict).2 []
     { args_strict with argv := [], pipe_fd := (-1, -1) } false (by decide) (by decide)
     (by decide) (by decide) (fun _ _ => ⟨rfl, rfl⟩) (by decide)⟩

/-- Claim C8 fails as stated: with the system file present, `HOME` set and a local
`client.conf` already there, the directive is appended and the local file changes. -/
theorem C8_pulse_directive_counterexample :
    child_env_pulse_exists.sys_pulse = some "autospawn = no\n".toList ∧
    child_env_pulse_exists.home = some "/home/u" ∧
    child_env_pulse_exists.local_pulse_stat = 0 ∧
    file_after "/home/u/.config/pulse/client.conf" "old = yes\n".toList
      (setup_pulseaudio child_env_pulse_exists false).1
      = "old = yes\n\nenable-shm = no\n".toList ∧
    file_after "/home/u/.config/pulse/client.conf" "old = yes\n".toList
      (setup_pulseaudio child_env_pulse_exists false).1 ≠ "old = yes\n".toList := by
  decide

/-- Claim C8, amended, on a host without and on a host with a local `client.conf`. -/
theorem C8_pulse_directive_witness :
    file_after "/home/u/.config/pulse/client.conf" [] (setup_pulseaudio child_env_ok false).1
      = "autospawn = no\n\nenable-shm = no\n".toList ∧
    file_after "/home/u/.config/pulse/client.conf" "old = yes\n".toList
      (setup_pulseaudio child_env_pulse_exists false).1
      = "old = yes\n\nenable-shm = no\n".toList :=
  ⟨((C8_pulse_directive child_env_ok false "autospawn = no\n".toList "/home/u" [] rfl rfl rfl
      (fun _ => rfl)).2.1 (by decide)).trans (by decide),
   ((C8_pulse_directive child_env_pulse_exists false "autospawn = no\n".toList "/home/u"
      "old = yes\n".toList rfl rfl rfl (fun _ => rfl)).2.2 (by decide)).trans (by decide)⟩

/-- Claim C9 fails as stated: with a base path under which nothing can be created, every
`mkdir` call returns -1, so neither `a/upper` nor `a/work` is created, and the overlay
mount over `/a` is issued all the same. -/
theorem C9_overlay_mount_call_counterexample :
    (setup_overlays child_env_mkdir_fails false "/nonexistent/scratch" false false).1 =
      [ .mkdir "/nonexistent/scratch" 0o755 (-1),
        .log "INFO" "Overlaying a ...",
        .mkdir "/nonexistent/scratch/a" 0o755 (-1),
        .mkdir "/nonexistent/scratch/a/upper" 0o755 (-1),
        .mkdir "/nonexistent/scratch/a/work" 0o755 (-1),
        .mount "overlay" "/a" "overlay" MS_MGC_VAL
          (some ("lowerdir=/a,upperdir=/nonexistent/scratch/a/upper,"
            ++ "workdir=/nonexistent/scratch/a/work")) (-1) ] := by
  decide

/-- Claim C9, amended, for the entry `b` of a root with `.`, `..`, `a`, `b`, `proc`, `dev`
on a host where every call succeeds. -/
theorem C9_overlay_mount_call_witness :
    ∃ A B, (setup_overlays child_env_ok false "/scratch" false false).1 =
        A ++
        [ .mkdir "/scratch/b" 0o755 0,
          .mkdir "/scratch/b/upper" 0o755 0,
          .mkdir "/scratch/b/work" 0o755 0,
          .mount "overlay" "/b" "overlay" MS_MGC_VAL
            (some "lowerdir=/b,upperdir=/scratch/b/upper,workdir=/scratch/b/work") 0 ] ++ B ∧
      overlay_targets A = ["/a"] :=
  C9_overlay_mount_call child_env_ok false "/scratch" false false
    [dir_entry "." 0, dir_entry ".." 0, dir_entry "a" 0] (dir_entry "b" 0)
    [dir_entry "proc" 0, dir_entry "dev" 0] rfl (by decide) (by decide)

/-- Claim C10 on a host where the overlay mount over `/a` fails, and, for the converse, in
the forked process of a host where every mount succeeds. -/
theorem C10_overlay_mount_failure_fatal_witness :
    child_func child_env_mount_fails false args_strict =
      ([ .close 4, .read 3 0,
         .mkdtemp "/dev/shm/emajail_XXXXXX" (some "/dev/shm/emajail_k3J9xQ"),
         .mount "tmpfs" "/dev/shm/emajail_k3J9xQ" "tmpfs" 16793614 (some "") 0,
         .mkdir "/dev/shm/emajail_k3J9xQ" 0o755 0,
         .log "INFO" "Overlaying a ...",
         .mkdir "/dev/shm/emajail_k3J9xQ/a" 0o755 0,
         .mkdir "/dev/shm/emajail_k3J9xQ/a/upper" 0o755 0,
         .mkdir "/dev/shm/emajail_k3J9xQ/a/work" 0o755 0,
         .mount "overlay" "/a" "overlay" MS_MGC_VAL
           (some ("lowerdir=/a,upperdir=/dev/shm/emajail_k3J9xQ/a/upper,"
             ++ "workdir=/dev/shm/emajail_k3J9xQ/a/work")) (-1),
         .log "ERR" "Exception: Error in mount (errno: 1, Operation not permitted)" ],
       Exit.returned (-1)) ∧
    Event.execvp "/bin/false" ["/bin/false"]
      ∈ (child_func child_env_forked false args_strict).1 ∧
    (∀ r ∈ child_env_forked.root, selected args_strict.empty_home r.ent = true →
      r.mount_ret ≠ -1) :=
  ⟨((C10_overlay_mount_failure_fatal child_env_mount_fails false args_strict).1
      "/dev/shm/emajail_k3J9xQ" [] (dir_entry "a" (-1)) [dir_entry "b" 0] rfl rfl
      (fun _ => by decide) rfl (by simp) (by decide) rfl).1.trans (by decide),
   by decide,
   fun r hr hs =>
     (((C10_overlay_mount_failure_fatal child_env_forked false args_strict).2
       "/bin/false" ["/bin/false"] (by decide)).1 r hr hs).1⟩

end Emajail
